import Mathlib

/-!
Verification development for the DataLift rule-based document-extraction
engine (react-native-datalift).  The TypeScript sources are shallowly
embedded: strings become `List Char`, JS numbers become `Qv` with explicit
rounding where the source rounds, regular expressions become either
bespoke character-level scanners (for the OCR normalizer, whose global
`replace` semantics we reason about universally) or terms of a small
backtracking regex interpreter that mirrors ECMAScript matching
(leftmost match, greedy quantifiers with backtracking, capture groups,
lookahead, word boundaries).
-/

namespace DataLift

/-- Strings are embedded as lists of characters. -/
abbrev Str := List Char

/-- ECMAScript `\s` (WhiteSpace ∪ LineTerminator), restricted to the code
points that can actually occur here. -/
def isJsSpace (c : Char) : Bool :=
  c = ' ' || c = '\t' || c = '\n' || c = '\r' ||
  c = Char.ofNat 11 || c = Char.ofNat 12 ||
  c = Char.ofNat 0xa0 || c = Char.ofNat 0x1680 ||
  (0x2000 ≤ c.toNat && c.toNat ≤ 0x200a) ||
  c = Char.ofNat 0x2028 || c = Char.ofNat 0x2029 ||
  c = Char.ofNat 0x202f || c = Char.ofNat 0x205f ||
  c = Char.ofNat 0x3000 || c = Char.ofNat 0xfeff

/-- ECMAScript `\d`. -/
def isDigitC (c : Char) : Bool := '0' ≤ c && c ≤ '9'

/-- ECMAScript `\w` = `[A-Za-z0-9_]`. -/
def isWordC (c : Char) : Bool :=
  ('a' ≤ c && c ≤ 'z') || ('A' ≤ c && c ≤ 'Z') || isDigitC c || c = '_'

def isAsciiLower (c : Char) : Bool := 'a' ≤ c && c ≤ 'z'
def isAsciiUpper (c : Char) : Bool := 'A' ≤ c && c ≤ 'Z'
def isAlphaC (c : Char) : Bool := isAsciiLower c || isAsciiUpper c

/-- ASCII lower-casing (all strings handled here are ASCII). -/
def lowerC (c : Char) : Char :=
  if isAsciiUpper c then Char.ofNat (c.toNat + 32) else c

def lowerS (s : Str) : Str := s.map lowerC

/-- `String.prototype.trim`. -/
def jsTrim (s : Str) : Str :=
  ((s.dropWhile isJsSpace).reverse.dropWhile isJsSpace).reverse

/-- Number of newline characters, the quantity the normalizer must keep. -/
def nlCount : Str → Nat
  | [] => 0
  | c :: s => (if c = '\n' then 1 else 0) + nlCount s

-- ─── OCR text normalization (source: `normaliseOCRText`, parser foundation) ──
-- Each global `replace` is embedded as a character scanner with exactly the
-- ECMAScript semantics: leftmost match, greedy subpatterns, and the scan
-- resuming immediately after each replaced match.

/-- Transform 1: `t.replace(/(\$\s*)[lI](\d)/g, "$11$2")` — a lowercase L or
uppercase I mistaken for `1` after a currency symbol.  The replacement keeps
group 1 (the `$` and the following whitespace) and the digit, and puts `1`
for the misread letter. -/
def normStep1 : Nat → Str → Str
  | 0, s => s
  | _ + 1, [] => []
  | fuel + 1, c :: rest =>
    if c = '$' then
      let ws := rest.takeWhile isJsSpace
      match rest.dropWhile isJsSpace with
      | l :: d :: tail =>
        if (l = 'l' || l = 'I') && isDigitC d then
          c :: ws ++ '1' :: d :: normStep1 fuel tail
        else c :: normStep1 fuel rest
      | _ => c :: normStep1 fuel rest
    else c :: normStep1 fuel rest

/-- Transform 2: `t.replace(/(\d)[Oo](\d)/g, "$10$2")` — the letter O mistaken
for `0` between digits.  The scan resumes after the second digit, so
overlapping runs such as `1O2O3` are only partially repaired in one pass. -/
def normStep2 : Str → Str
  | c1 :: c2 :: c3 :: rest =>
    if isDigitC c1 && (c2 = 'O' || c2 = 'o') && isDigitC c3 then
      c1 :: '0' :: c3 :: normStep2 rest
    else c1 :: normStep2 (c2 :: c3 :: rest)
  | s => s

/-- Greedily consume `(?:,\d{3})*`, returning (consumed, rest). -/
def commaGroups : Str → Str × Str
  | ',' :: a :: b :: c :: rest =>
    if isDigitC a && isDigitC b && isDigitC c then
      let p := commaGroups rest
      (',' :: a :: b :: c :: p.1, p.2)
    else ([], ',' :: a :: b :: c :: rest)
  | s => ([], s)

/-- Matcher for the amount part of transform 3:
`\d{1,3}(?:,\d{3})*\.\d{2}\b` starting at the head of the list.  Returns the
matched characters and the remainder.  The pattern is deterministic: after
`\d{1,3}` the next character must be `,` or `.`, so the greedy digit run must
be 1–3 long, and backtracking over `(?:,\d{3})*` can never succeed either. -/
def amountTail3 (s : Str) : Option (Str × Str) :=
  if (s.takeWhile isDigitC).length = 0 ∨ 3 < (s.takeWhile isDigitC).length then none
  else
    match commaGroups (s.dropWhile isDigitC) with
    | (gs, '.' :: d1 :: d2 :: rest2) =>
      if isDigitC d1 && isDigitC d2 &&
         (match rest2 with | [] => true | c :: _ => !isWordC c) then
        some (s.takeWhile isDigitC ++ gs ++ '.' :: d1 :: d2 :: [], rest2)
      else none
    | _ => none

/-- Transform 3: `t.replace(/(?<=\s)S(\d{1,3}(?:,\d{3})*\.\d{2})\b/g, "\$$1")`.
The replacement string literal evaluates to `$$1`, in which `$$` is an escaped
literal dollar sign, so every match is replaced by the two characters `$1`
(the captured amount is dropped).  `prev` is the previous character of the
original input, for the `(?<=\s)` lookbehind. -/
def normStep3 : Nat → Option Char → Str → Str
  | 0, _, s => s
  | _ + 1, _, [] => []
  | fuel + 1, prev, c :: rest =>
    if c = 'S' && (match prev with | some p => isJsSpace p | none => false) then
      match amountTail3 rest with
      | some (m, rest2) =>
        '$' :: '1' :: normStep3 fuel (some (m.getLastD 'S')) rest2
      | none => c :: normStep3 fuel (some c) rest
    else c :: normStep3 fuel (some c) rest

def isBlankC (c : Char) : Bool := c = ' ' || c = '\t'

/-- Transform 4: `t.replace(/[ \t]{2,}/g, "  ")` — collapse runs of two or
more spaces/tabs to exactly two spaces. -/
def normStep4 : Nat → Str → Str
  | 0, s => s
  | _ + 1, [] => []
  | fuel + 1, c :: rest =>
    if isBlankC c then
      match rest with
      | c2 :: _ =>
        if isBlankC c2 then ' ' :: ' ' :: normStep4 fuel (rest.dropWhile isBlankC)
        else c :: normStep4 fuel rest
      | [] => [c]
    else c :: normStep4 fuel rest

/-- Lookahead of transform 5: `(?=\d{3}(?:[.,]|\b))` — three digits followed
by `.`/`,`/a word boundary (all of which amount to: a non-word character or
the end of the input). -/
def threeDigitsThenBreak : Str → Bool
  | d1 :: d2 :: d3 :: rest =>
    isDigitC d1 && isDigitC d2 && isDigitC d3 &&
    (match rest with | [] => true | c :: _ => !isWordC c)
  | _ => false

/-- Transform 5: `t.replace(/(?<=\d) (?=\d{3}(?:[.,]|\b))/g, "")` — drop an
OCR-inserted space inside a monetary value. -/
def normStep5 : Option Char → Str → Str
  | _, [] => []
  | prev, c :: rest =>
    if c = ' ' && (match prev with | some p => isDigitC p | none => false) &&
       threeDigitsThenBreak rest then
      normStep5 (some c) rest
    else c :: normStep5 (some c) rest

/-- Transform 6: `t.replace(/[–—]/g, "-")` — en/em dashes to ASCII hyphen. -/
def isDashC (c : Char) : Bool := c = Char.ofNat 0x2013 || c = Char.ofNat 0x2014

def normStep6 : Str → Str
  | [] => []
  | c :: rest => (if isDashC c then '-' else c) :: normStep6 rest

/-- Transform 7: `t.replace(/[​-‍﻿]/g, "")` — strip zero-width
characters. -/
def isZeroWidthC (c : Char) : Bool :=
  (0x200b ≤ c.toNat && c.toNat ≤ 0x200d) || c.toNat = 0xfeff

def normStep7 : Str → Str
  | [] => []
  | c :: rest => if isZeroWidthC c then normStep7 rest else c :: normStep7 rest

/-- Split on `\n` (never returns an empty list of lines). -/
def splitNl : Str → List Str
  | [] => [[]]
  | c :: rest =>
    if c = '\n' then [] :: splitNl rest
    else
      match splitNl rest with
      | l :: ls => (c :: l) :: ls
      | [] => [[c]]

/-- Join lines with `\n` (inverse of `splitNl`). -/
def joinNl : List Str → Str
  | [] => []
  | [l] => l
  | l :: ls => l ++ '\n' :: joinNl ls

/-- Trailing `[ \t]+` of a single line. -/
def trimLineEnd (l : Str) : Str :=
  (l.reverse.dropWhile isBlankC).reverse

/-- Transform 8: `t.replace(/[ \t]+$/gm, "")` — trim trailing blanks on every
line. -/
def normStep8 (s : Str) : Str :=
  joinNl ((splitNl s).map trimLineEnd)

/-- `normaliseOCRText` — the eight repairs applied in source order. -/
def normaliseOCRText (raw : Str) : Str :=
  let t1 := normStep1 raw.length raw
  let t2 := normStep2 t1
  let t3 := normStep3 t2.length none t2
  let t4 := normStep4 t3.length t3
  let t5 := normStep5 none t4
  let t6 := normStep6 t5
  let t7 := normStep7 t6
  normStep8 t7

-- ─── ECMAScript-style regex interpreter ───────────────────────────────────────
-- The remaining source regexes are embedded as terms of `RE` and run by a
-- backtracking matcher with JS semantics: alternation and quantifiers are
-- tried in priority order (greedy), star drops empty iterations, and the
-- leftmost starting position wins.

inductive RE where
  | eps : RE
  | cls : (Char → Bool) → RE
  | seq : RE → RE → RE
  | alt : RE → RE → RE
  | star : RE → RE
  | rep : RE → Nat → Nat → RE
  | grp : Nat → RE → RE
  | nla : RE → RE
  | wb : RE
  | bos : RE
  | eos : RE

/-- Capture list: (group index, start, stop), most recent first. -/
abbrev Caps := List (Nat × Nat × Nat)

/-- Is there a word boundary at position `pos` of `inp`? -/
def wordBoundaryAt (inp : Str) (pos : Nat) : Bool :=
  let before := match inp[pos - 1]? with
    | some c => if pos = 0 then false else isWordC c
    | none => false
  let after := match inp[pos]? with
    | some c => isWordC c
    | none => false
  before != after

/-- All ways `r` can match `inp` starting at `pos`, as (end position,
captures), in JS priority order (head = the match JS would pick). -/
def mrun : Nat → RE → Str → Nat → Caps → List (Nat × Caps)
  | 0, _, _, _, _ => []
  | fuel + 1, r, inp, pos, cp =>
    match r with
    | .eps => [(pos, cp)]
    | .cls p =>
      match inp[pos]? with
      | some c => if p c then [(pos + 1, cp)] else []
      | none => []
    | .seq a b =>
      (mrun fuel a inp pos cp).flatMap fun pc => mrun fuel b inp pc.1 pc.2
    | .alt a b => mrun fuel a inp pos cp ++ mrun fuel b inp pos cp
    | .star a =>
      ((mrun fuel a inp pos cp).filter fun pc => pos < pc.1).flatMap
        (fun pc => mrun fuel (.star a) inp pc.1 pc.2) ++ [(pos, cp)]
    | .rep a lo hi =>
      if hi = 0 then (if lo = 0 then [(pos, cp)] else [])
      else
        let more := (mrun fuel a inp pos cp).flatMap fun pc =>
          mrun fuel (.rep a (lo - 1) (hi - 1)) inp pc.1 pc.2
        if lo = 0 then more ++ [(pos, cp)] else more
    | .grp i a =>
      (mrun fuel a inp pos cp).map fun pc => (pc.1, (i, pos, pc.1) :: pc.2)
    | .nla a => if (mrun fuel a inp pos cp).isEmpty then [(pos, cp)] else []
    | .wb => if wordBoundaryAt inp pos then [(pos, cp)] else []
    | .bos => if pos = 0 then [(pos, cp)] else []
    | .eos => if pos = inp.length then [(pos, cp)] else []

/-- Fuel that clearly dominates the recursion depth of `mrun` on `inp`. -/
def reSize : RE → Nat
  | .eps | .wb | .bos | .eos => 1
  | .cls _ => 1
  | .seq a b => reSize a + reSize b + 1
  | .alt a b => reSize a + reSize b + 1
  | .star a => reSize a + 2
  | .rep a _ hi => (hi + 1) * (reSize a + 1) + 1
  | .grp _ a => reSize a + 1
  | .nla a => reSize a + 1

def fuelFor (r : RE) (inp : Str) : Nat :=
  (inp.length + 2) * (inp.length + 2) * (reSize r + 2)

/-- First match of `r` at or after `pos` (JS `RegExp` search): start, end and
captures of the leftmost match, using the matcher's priority order. -/
def searchFrom : Nat → RE → Str → Nat → Option (Nat × Nat × Caps)
  | 0, _, _, _ => none
  | fl + 1, r, inp, pos =>
    match mrun (fuelFor r inp) r inp pos [] with
    | pc :: _ => some (pos, pc.1, pc.2)
    | [] => if pos < inp.length then searchFrom fl r inp (pos + 1) else none

/-- `rx.exec(s)` / `s.match(rx)` without the global flag. -/
def jsSearch (r : RE) (inp : Str) : Option (Nat × Nat × Caps) :=
  searchFrom (inp.length + 1) r inp 0

/-- `rx.test(s)`. -/
def jsTest (r : RE) (inp : Str) : Bool := (jsSearch r inp).isSome

/-- Substring `[a, b)` of the input. -/
def sliceStr (inp : Str) (a b : Nat) : Str := (inp.drop a).take (b - a)

/-- Captured group `i` of a match result (JS `m[i]`, `none` = undefined). -/
def capStr (inp : Str) (cp : Caps) (i : Nat) : Option Str :=
  match cp.find? (fun e => e.1 = i) with
  | some e => some (sliceStr inp e.2.1 e.2.2)
  | none => none

/-- Full text of a search result (JS `m[0]`). -/
def matchStr (inp : Str) (m : Nat × Nat × Caps) : Str := sliceStr inp m.1 m.2.1

/-- Group `i` of the first match, JS `s.match(rx)?.[i]`. -/
def jsMatchGroup (r : RE) (inp : Str) (i : Nat) : Option Str :=
  match jsSearch r inp with
  | some m => if i = 0 then some (matchStr inp m) else capStr inp m.2.2 i
  | none => none

/-- All matches with the global flag (JS `exec` loop / `matchAll`): empty
matches advance the scan by one, as `lastIndex` does. -/
def gmatches : Nat → RE → Str → Nat → List (Nat × Nat × Caps)
  | 0, _, _, _ => []
  | fl + 1, r, inp, pos =>
    match searchFrom (inp.length + 1 - pos) r inp pos with
    | some m =>
      m :: gmatches fl r inp (if m.2.1 = m.1 then m.2.1 + 1 else m.2.1)
    | none => []

def jsMatchAll (r : RE) (inp : Str) : List (Nat × Nat × Caps) :=
  gmatches (inp.length + 2) r inp 0

/-- `s.replace(rx, "")` without the global flag: delete the first match. -/
def removeFirst (r : RE) (inp : Str) : Str :=
  match jsSearch r inp with
  | some m => sliceStr inp 0 m.1 ++ inp.drop m.2.1
  | none => inp

def removeAllGo (inp : Str) : List (Nat × Nat × Caps) → Nat → Str
  | [], start => inp.drop start
  | m :: ms, start => sliceStr inp start m.1 ++ removeAllGo inp ms m.2.1

/-- `s.replace(rx, "")` with the global flag: delete every match. -/
def removeAll (r : RE) (inp : Str) : Str :=
  removeAllGo inp (jsMatchAll r inp) 0

def jsSplitGo (inp : Str) : List (Nat × Nat × Caps) → Nat → List Str
  | [], start => [inp.drop start]
  | m :: ms, start => sliceStr inp start m.1 :: jsSplitGo inp ms m.2.1

/-- `s.split(rx)`. -/
def jsSplit (r : RE) (inp : Str) : List Str :=
  jsSplitGo inp (jsMatchAll r inp) 0

-- RE building helpers (shorthand used when transcribing the source regexes).

/-- A single exact character. -/
def rC (c : Char) : RE := .cls (fun x => x = c)

/-- A single character, case-insensitively (`c` given in lowercase). -/
def rCI (c : Char) : RE := .cls (fun x => lowerC x = c)

/-- Case-sensitive literal string. -/
def rS (s : String) : RE :=
  (s.data.map rC).foldr .seq .eps

/-- Case-insensitive literal string (`s` given in lowercase). -/
def rSI (s : String) : RE :=
  (s.data.map rCI).foldr .seq .eps

/-- Sequence of a list of regexes. -/
def rCat (l : List RE) : RE := l.foldr .seq .eps

/-- Alternation in priority order. -/
def rOr (l : List RE) : RE :=
  match l with
  | [] => .eps
  | [x] => x
  | x :: xs => .alt x (rOr xs)

def rOptQ (a : RE) : RE := .rep a 0 1
def rPlus (a : RE) : RE := .seq a (.star a)
/-- `a{n,}`. -/
def rAtLeast (a : RE) (n : Nat) : RE := .seq (.rep a n n) (.star a)

def rDigit : RE := .cls isDigitC
def rWordC : RE := .cls isWordC
def rWs : RE := .cls isJsSpace
/-- `[^\S\n]` — whitespace other than newline. -/
def rWsNoNl : RE := .cls (fun c => isJsSpace c && c ≠ '\n')
/-- `[ \t]`. -/
def rBlank : RE := .cls isBlankC
/-- `.` — any character except line terminators. -/
def rDot : RE := .cls (fun c => c ≠ '\n' && c ≠ '\r')
/-- A character from the given set. -/
def rAnyC (s : String) : RE := .cls (fun c => s.data.contains c)
/-- A character from the given set, case-insensitively (set in lowercase). -/
def rAnyCI (s : String) : RE := .cls (fun c => s.data.contains (lowerC c))
/-- A character satisfying none of the listed predicates (`[^…]`). -/
def rNone (ps : List (Char → Bool)) : RE := .cls (fun c => !(ps.any (· c)))

-- ─── Exact rational numbers with kernel-computable arithmetic ────────────────
-- Mathlib's `Qv` arithmetic does not reduce inside the kernel, so JS numbers
-- are carried by `Qv`: reduced fractions (sign on the numerator, positive
-- denominator) whose operations the kernel can evaluate under `decide`.

structure Qv where
  num : Int
  den : Nat
  deriving DecidableEq, Repr

/-- Normalized fraction `n / d` (`0/1` when `d = 0`). -/
def Qv.norm (n : Int) (d : Int) : Qv :=
  if d = 0 then ⟨0, 1⟩
  else
    let n1 := if d < 0 then -n else n
    let d1 := d.natAbs
    let g := Nat.gcd n1.natAbs d1
    ⟨n1 / (g : Int), d1 / g⟩

def Qv.ofInt (n : Int) : Qv := ⟨n, 1⟩

instance (n : Nat) : OfNat Qv n := ⟨⟨(n : Int), 1⟩⟩

def Qv.add (a b : Qv) : Qv :=
  Qv.norm (a.num * (b.den : Int) + b.num * (a.den : Int))
    ((a.den : Int) * (b.den : Int))

def Qv.sub (a b : Qv) : Qv :=
  Qv.norm (a.num * (b.den : Int) - b.num * (a.den : Int))
    ((a.den : Int) * (b.den : Int))

def Qv.mul (a b : Qv) : Qv :=
  Qv.norm (a.num * b.num) ((a.den : Int) * (b.den : Int))

/-- Division (`0` when the divisor is `0`; the guarded source paths never
divide by zero). -/
def Qv.div (a b : Qv) : Qv :=
  Qv.norm (a.num * (b.den : Int)) ((a.den : Int) * b.num)

def Qv.neg (a : Qv) : Qv := ⟨-a.num, a.den⟩

def Qv.abs (a : Qv) : Qv := ⟨(a.num.natAbs : Int), a.den⟩

def Qv.le (a b : Qv) : Prop := a.num * (b.den : Int) ≤ b.num * (a.den : Int)

def Qv.lt (a b : Qv) : Prop := a.num * (b.den : Int) < b.num * (a.den : Int)

instance : Add Qv := ⟨Qv.add⟩
instance : Sub Qv := ⟨Qv.sub⟩
instance : Mul Qv := ⟨Qv.mul⟩
instance : Div Qv := ⟨Qv.div⟩
instance : Neg Qv := ⟨Qv.neg⟩
instance : LE Qv := ⟨Qv.le⟩
instance : LT Qv := ⟨Qv.lt⟩

instance (a b : Qv) : Decidable (a ≤ b) :=
  inferInstanceAs (Decidable (a.num * (b.den : Int) ≤ b.num * (a.den : Int)))

instance (a b : Qv) : Decidable (a < b) :=
  inferInstanceAs (Decidable (a.num * (b.den : Int) < b.num * (a.den : Int)))

/-- `Math.min` / `Math.max`. -/
instance : Min Qv := ⟨fun a b => if a ≤ b then a else b⟩
instance : Max Qv := ⟨fun a b => if a ≤ b then b else a⟩

/-- `⌊a⌋`. -/
def Qv.floor (a : Qv) : Int := Int.fdiv a.num (a.den : Int)

-- ─── JS number model ─────────────────────────────────────────────────────────
-- JS numbers are modelled as exact rationals; the places where the source
-- rounds (`toFixed(2)` / `toFixed(4)` re-parsed with `parseFloat`) round
-- explicitly, with the ES `toFixed` tie rule (ties pick the larger value).

def round4 (q : Qv) : Qv := Qv.ofInt (Qv.floor (q * 10000 + 1 / 2)) / 10000

def round2 (q : Qv) : Qv := Qv.ofInt (Qv.floor (q * 100 + 1 / 2)) / 100

def digitsToNat (ds : Str) : Nat :=
  ds.foldl (fun acc c => acc * 10 + (c.toNat - '0'.toNat)) 0

/-- `parseFloat` (no exponents, which never occur here): skip leading
whitespace, optional sign, integer digits, optional fraction; trailing junk
is ignored; `none` is NaN. -/
def parseFloatQ (s : Str) : Option Qv :=
  let t := s.dropWhile isJsSpace
  let sign : Qv := if t.take 1 = ['-'] then -1 else 1
  let t2 := if t.take 1 = ['-'] || t.take 1 = ['+'] then t.drop 1 else t
  let ip := t2.takeWhile isDigitC
  let t3 := t2.dropWhile isDigitC
  match t3 with
  | '.' :: r =>
    let fp := r.takeWhile isDigitC
    if ip.length = 0 ∧ fp.length = 0 then none
    else
      some (sign * (Qv.ofInt (digitsToNat ip : Int) +
        Qv.ofInt (digitsToNat fp : Int) / Qv.ofInt ((10 ^ fp.length : Nat) : Int)))
  | _ =>
    if ip.length = 0 then none
    else some (sign * Qv.ofInt (digitsToNat ip : Int))

/-- `parseInt(s)` in base 10. -/
def parseIntQ (s : Str) : Option ℤ :=
  let t := s.dropWhile isJsSpace
  let sign : ℤ := if t.take 1 = ['-'] then -1 else 1
  let t2 := if t.take 1 = ['-'] || t.take 1 = ['+'] then t.drop 1 else t
  let ip := t2.takeWhile isDigitC
  if ip.length = 0 then none else some (sign * (digitsToNat ip : ℤ))

/-- `Number.isInteger`. -/
def isIntegerQ (q : Qv) : Bool := q.den = 1

-- ─── Canonical response schema (source: `DataLiftResponse.ts`) ───────────────

structure DLAddress where
  street : Option Str := none
  city : Option Str := none
  state : Option Str := none
  postalCode : Option Str := none
  country : Option Str := none
  fullAddress : Option Str := none
  deriving DecidableEq, Repr

structure DLContact where
  phone : Option Str := none
  email : Option Str := none
  website : Option Str := none
  deriving DecidableEq, Repr

structure DLTaxInformation where
  taxId : Option Str := none
  gstNumber : Option Str := none
  vatNumber : Option Str := none
  ein : Option Str := none
  abnNumber : Option Str := none
  acnNumber : Option Str := none
  deriving DecidableEq, Repr

/-- `DataLiftSupplier` (`locationCoordinates` is never produced by the
rule-based parser and is omitted). -/
structure DLSupplier where
  name : Str := []
  address : DLAddress := {}
  contact : DLContact := {}
  taxInformation : Option DLTaxInformation := none
  deriving DecidableEq, Repr

/-- `Pick<DataLiftAddress, "fullAddress">`. -/
structure DLBuyerAddress where
  fullAddress : Option Str := none
  deriving DecidableEq, Repr

/-- `Pick<DataLiftContact, "phone" | "email">`. -/
structure DLBuyerContact where
  phone : Option Str := none
  email : Option Str := none
  deriving DecidableEq, Repr

structure DLBuyer where
  name : Option Str := none
  address : Option DLBuyerAddress := none
  contact : Option DLBuyerContact := none
  deriving DecidableEq, Repr

structure DLTransaction where
  invoiceNumber : Option Str := none
  purchaseOrderNumber : Option Str := none
  quoteNumber : Option Str := none
  invoiceDate : Option Str := none
  dueDate : Option Str := none
  transactionDate : Option Str := none
  transactionTime : Option Str := none
  paymentMode : Option Str := none
  paymentTerms : Option Str := none
  currency : Option Str := none
  deriving DecidableEq, Repr

structure DLPart where
  itemName : Str
  description : Option Str := none
  sku : Option Str := none
  partNumber : Option Str := none
  manufacturerPartNumber : Option Str := none
  quantity : Qv := 1
  unit : Option Str := none
  unitPrice : Option Qv := none
  discount : Option Qv := none
  taxPercentage : Option Qv := none
  taxAmount : Option Qv := none
  totalAmount : Qv
  deriving DecidableEq, Repr

structure DLTotals where
  subtotal : Option Qv := none
  totalTax : Option Qv := none
  shippingCost : Option Qv := none
  discount : Option Qv := none
  tip : Option Qv := none
  serviceCharge : Option Qv := none
  amountPaid : Option Qv := none
  balanceDue : Option Qv := none
  grandTotal : Qv := 0
  deriving DecidableEq, Repr

inductive DocType where
  | invoice | receipt | purchase_order | work_order | bill | statement
  | quote | cmms | supplier_document | contract | generic
  deriving DecidableEq, Repr

/-- `DataLiftMetadata`.  The source stamps `extractionTimestamp` with the
current instant, which is outside the embedding; it is carried as an opaque
string field. -/
structure DLMetadata where
  documentType : DocType
  confidenceScore : Qv
  extractionTimestamp : Str := []
  languageDetected : Str
  ocrProvider : Option Str := none
  aiProviderUsed : Option Str := none
  processingTimeMs : Option Qv := none
  pageCount : Option Qv := none
  warnings : Option (List Str) := none
  deriving DecidableEq, Repr

structure DLResponse where
  metadata : DLMetadata
  supplier : DLSupplier
  buyer : DLBuyer
  transaction : DLTransaction
  parts : List DLPart
  totals : DLTotals
  rawText : Option Str := none
  deriving DecidableEq, Repr

/-- `RuleBasedParserOptions`.  The `documentType` hint is modelled with the
enum only (the claims never exercise the raw-string escape hatch). -/
structure ParserOpts where
  documentType : Option DocType := none
  language : Option Str := none

-- ─── Pattern library (source: `PATTERNS`) ────────────────────────────────────

/-- `PHONE`:
`(?:\+\d{1,3}[ \t\-.]?)(?:\(?\d{1,4}\)?[ \t\-.]){1,4}\d{2,6}|(?:\(?\d{2,4}\)?[ \t\-.]?\d{3,4}[ \t\-.]?\d{3,4})`. -/
def rxPHONE : RE :=
  .alt
    (rCat [rC '+', .rep rDigit 1 3, rOptQ (rAnyC " \t-."),
      .rep (rCat [rOptQ (rC '('), .rep rDigit 1 4, rOptQ (rC ')'),
        rAnyC " \t-."]) 1 4,
      .rep rDigit 2 6])
    (rCat [rOptQ (rC '('), .rep rDigit 2 4, rOptQ (rC ')'),
      rOptQ (rAnyC " \t-."), .rep rDigit 3 4, rOptQ (rAnyC " \t-."),
      .rep rDigit 3 4])

/-- `EMAIL`: `[\w.+\-]+@[\w\-]+\.[\w.]{2,}`. -/
def rxEMAIL : RE :=
  rCat [rPlus (.cls fun c => isWordC c || c = '.' || c = '+' || c = '-'),
    rC '@', rPlus (.cls fun c => isWordC c || c = '-'), rC '.',
    rAtLeast (.cls fun c => isWordC c || c = '.') 2]

/-- `URL`: `https?:\/\/[^\s]+|www\.[^\s]+` (i). -/
def rxURL : RE :=
  .alt
    (rCat [rSI "http", rOptQ (rCI 's'), rS "://", rPlus (rNone [isJsSpace])])
    (rCat [rSI "www.", rPlus (rNone [isJsSpace])])

/-- `DATE_ISO`: four digits, `[-\/]`, two digits, `[-\/]`, two digits, inside word boundaries. -/
def rxDATE_ISO : RE :=
  rCat [.wb, .grp 1 (rCat [.rep rDigit 4 4, rAnyC "-/", .rep rDigit 2 2,
    rAnyC "-/", .rep rDigit 2 2]), .wb]

/-- `SKU_LABELED`:
`(?:SKU|Part\s*(?:No|#)|Item\s*(?:No|#)|PN|Catalog\s*(?:No|#))[\s:.]*([A-Z0-9][A-Z0-9\-_.]{2,})` (i). -/
def rxSKU_LABELED : RE :=
  rCat [rOr [rSI "sku",
      rCat [rSI "part", .star rWs, .alt (rSI "no") (rC '#')],
      rCat [rSI "item", .star rWs, .alt (rSI "no") (rC '#')],
      rSI "pn",
      rCat [rSI "catalog", .star rWs, .alt (rSI "no") (rC '#')]],
    .star (.cls fun c => isJsSpace c || c = ':' || c = '.'),
    .grp 1 (rCat [.cls (fun c => isAlphaC c || isDigitC c),
      rAtLeast (.cls fun c => isAlphaC c || isDigitC c || c = '-' || c = '_' || c = '.') 2])]

/-- `SKU_BARE`: `\b([A-Z]{2,6}-[A-Z0-9]{2,}-[A-Z0-9]{2,})\b` (case-sensitive). -/
def rxSKU_BARE : RE :=
  rCat [.wb, .grp 1 (rCat [.rep (.cls isAsciiUpper) 2 6, rC '-',
    rAtLeast (.cls fun c => isAsciiUpper c || isDigitC c) 2, rC '-',
    rAtLeast (.cls fun c => isAsciiUpper c || isDigitC c) 2]), .wb]

/-- `TAX_PERCENT`: `\b(\d{1,3}(?:\.\d{1,2})?)\s*(?:%|percent|pct)\b` (i). -/
def rxTAX_PERCENT : RE :=
  rCat [.wb, .grp 1 (rCat [.rep rDigit 1 3,
    rOptQ (rCat [rC '.', .rep rDigit 1 2])]),
    .star rWs, rOr [rC '%', rSI "percent", rSI "pct"], .wb]

/-- `[\s:#.]*` and friends used by the tax-id patterns. -/
def rxLabelSep : RE := .star (.cls fun c => isJsSpace c || c = ':' || c = '#' || c = '.')

/-- `ABN`: `\bABN[\s:#.]*(\d{2}\s?\d{3}\s?\d{3}\s?\d{3})\b` (i). -/
def rxABN : RE :=
  rCat [.wb, rSI "abn", rxLabelSep,
    .grp 1 (rCat [.rep rDigit 2 2, rOptQ rWs, .rep rDigit 3 3, rOptQ rWs,
      .rep rDigit 3 3, rOptQ rWs, .rep rDigit 3 3]), .wb]

/-- `ACN`: `\bACN[\s:#.]*(\d{3}\s?\d{3}\s?\d{3})\b` (i). -/
def rxACN : RE :=
  rCat [.wb, rSI "acn", rxLabelSep,
    .grp 1 (rCat [.rep rDigit 3 3, rOptQ rWs, .rep rDigit 3 3, rOptQ rWs,
      .rep rDigit 3 3]), .wb]

/-- `GST_AU`: `\bGST[\s#:.-]*(?:No\.?|Number)?[\s:#.]*([A-Z0-9\-]+)` (i). -/
def rxGST_AU : RE :=
  rCat [.wb, rSI "gst",
    .star (.cls fun c => isJsSpace c || c = '#' || c = ':' || c = '.' || c = '-'),
    rOptQ (.alt (rCat [rSI "no", rOptQ (rC '.')]) (rSI "number")),
    rxLabelSep,
    .grp 1 (rPlus (.cls fun c => isAlphaC c || isDigitC c || c = '-'))]

/-- `EIN`: `\b(?:EIN|Tax\s*ID|Federal\s*Tax)[\s:#.]*(\d{2}-\d{7})\b` (i). -/
def rxEIN : RE :=
  rCat [.wb, rOr [rSI "ein", rCat [rSI "tax", .star rWs, rSI "id"],
      rCat [rSI "federal", .star rWs, rSI "tax"]],
    rxLabelSep,
    .grp 1 (rCat [.rep rDigit 2 2, rC '-', .rep rDigit 7 7]), .wb]

/-- `VAT`: `\b(?:VAT|VAT\s*No\.?)[\s:#.]*([A-Z]{2}[\s]?\d{7,12})\b` (i). -/
def rxVAT : RE :=
  rCat [.wb, .alt (rSI "vat") (rCat [rSI "vat", .star rWs, rSI "no", rOptQ (rC '.')]),
    rxLabelSep,
    .grp 1 (rCat [.rep (.cls isAlphaC) 2 2, rOptQ rWs, .rep rDigit 7 12]),
    .wb]

/-- `GSTIN`:
`\b(?:GSTIN|GST\s*No\.?)[\s:#.]*([0-9]{2}[A-Z]{5}[0-9]{4}[A-Z]{1}[1-9A-Z]{1}Z[0-9A-Z]{1})\b` (i). -/
def rxGSTIN : RE :=
  rCat [.wb, .alt (rSI "gstin") (rCat [rSI "gst", .star rWs, rSI "no", rOptQ (rC '.')]),
    rxLabelSep,
    .grp 1 (rCat [.rep rDigit 2 2, .rep (.cls isAlphaC) 5 5, .rep rDigit 4 4,
      .rep (.cls isAlphaC) 1 1,
      .rep (.cls fun c => ('1' ≤ c && c ≤ '9') || isAlphaC c) 1 1,
      rCI 'z',
      .rep (.cls fun c => isDigitC c || isAlphaC c) 1 1]), .wb]

-- ─── String helpers shared by the primitives ────────────────────────────────

def leadsWith : Str → Str → Bool
  | [], _ => true
  | _ :: _, [] => false
  | a :: as_, b :: bs => a = b && leadsWith as_ bs

/-- `String.prototype.includes`. -/
def containsSub (needle : Str) : Str → Bool
  | [] => needle.isEmpty
  | c :: rest => leadsWith needle (c :: rest) || containsSub needle rest

/-- Remove the first (case-sensitive) occurrence of a literal substring,
JS `s.replace(litString, "")`. -/
def removeFirstSub (needle : Str) : Str → Str
  | [] => []
  | c :: rest =>
    if leadsWith needle (c :: rest) then (c :: rest).drop needle.length
    else c :: removeFirstSub needle rest

/-- First-occurrence-preserving dedupe (`Array.from(new Set(...))`). -/
def dedupeStr (l : List Str) : List Str :=
  (l.foldl (fun acc s => if acc.contains s then acc else s :: acc) []).reverse

/-- `arr.join(sep)`. -/
def joinSep (sep : Str) : List Str → Str
  | [] => []
  | [l] => l
  | l :: ls => l ++ sep ++ joinSep sep ls

def collapseWsF : Nat → Str → Str
  | 0, s => s
  | _ + 1, [] => []
  | fuel + 1, c :: rest =>
    if isJsSpace c then ' ' :: collapseWsF fuel (rest.dropWhile isJsSpace)
    else c :: collapseWsF fuel rest

/-- `\s+` runs collapsed to a single space (`replace(/\s+/g, " ")`). -/
def collapseWs (s : Str) : Str := collapseWsF s.length s

/-- JS string truthiness for optional strings. -/
def truthyS : Option Str → Bool
  | some s => !s.isEmpty
  | none => false

def containsWordGo (w : Str) : Option Char → Str → Bool
  | _, [] => false
  | prev, c :: rest =>
    (leadsWith w (c :: rest) &&
      (match prev with | some p => !isWordC p | none => true) &&
      (match (c :: rest).drop w.length with
        | [] => true
        | d :: _ => !isWordC d)) ||
    containsWordGo w (some c) rest

/-- `word`-boundary containment test for a plain-letter word:
`/\b(w1|w2|…)\b/.test(s)` for one word. -/
def containsWord (w : Str) (s : Str) : Bool := containsWordGo w none s

/-- `/[A-Za-z]{2,}/`. -/
def rxTwoAlpha : RE := rCat [.cls isAlphaC, .cls isAlphaC]

/-- `/\d/`. -/
def hasDigit (s : Str) : Bool := s.any isDigitC

-- ─── Currency detection (source: `CURRENCY_MAP`, `detectCurrency`) ───────────

structure CurrencyInfo where
  code : Str
  symbol : Str
  deriving DecidableEq, Repr

/-- The ordered `CURRENCY_MAP` (each regex has the `i` flag). -/
def currencyMap : List (RE × String × String) :=
  [ (rOr [rCat [rCI 'a', rC '$'], rSI "aud",
      rCat [rSI "australian", rPlus rWs, rSI "dollar"]], "AUD", "A$"),
    (rOr [rC '$', rSI "usd", rCat [rSI "us", rC '$'],
      rCat [rSI "us", rPlus rWs, rSI "dollar"]], "USD", "$"),
    (rOr [rC '€', rSI "eur", rSI "euro"], "EUR", "€"),
    (rOr [rC '£', rSI "gbp", rSI "sterling"], "GBP", "£"),
    (rOr [rC '₹', rSI "inr", rSI "rs."], "INR", "₹"),
    (rOr [rC '¥', rSI "jpy", rSI "yen"], "JPY", "¥"),
    (rOr [rSI "nzd", rCat [rSI "nz", rC '$']], "NZD", "NZ$"),
    (rOr [rSI "cad", rCat [rCI 'c', rC '$']], "CAD", "C$"),
    (rOr [rSI "sgd", rCat [rCI 's', rC '$']], "SGD", "S$"),
    (rOr [rSI "aed", rSI "dirham"], "AED", "AED") ]

def detectCurrency (text : Str) : CurrencyInfo :=
  match currencyMap.find? (fun e => jsTest e.1 text) with
  | some e => { code := e.2.1.data, symbol := e.2.2.data }
  | none => { code := "USD".data, symbol := "$".data }

-- ─── Document type classifier (source: `classifyDocumentType`) ───────────────

/-- The keyword table, in the source's insertion order. -/
def docTypeKeywords : List (DocType × List String) :=
  [ (.invoice, ["invoice", "inv #", "inv no", "bill to", "amount due", "tax invoice"]),
    (.receipt, ["receipt", "thank you for your purchase", "cash", "change due", "transaction"]),
    (.purchase_order, ["purchase order", "p.o.", "po#", "po number", "ship to", "ordered by"]),
    (.work_order, ["work order", "wo#", "technician", "labour", "asset id", "fault"]),
    (.bill, ["bill", "billing period", "account no", "utility", "electricity", "gas"]),
    (.statement, ["statement", "opening balance", "closing balance", "transactions"]),
    (.quote, ["quotation", "quote", "estimate", "valid until", "quoted"]),
    (.cmms, ["cmms", "maintenance", "work request", "preventive maintenance"]),
    (.supplier_document, ["vendor", "supplier", "packing list", "delivery note", "delivery docket"]),
    (.contract, ["contract", "agreement", "whereas", "parties", "signed"]) ]

def classifyDocumentType (text : Str) : DocType :=
  let lower := lowerS text
  let scores : List (DocType × Nat) :=
    (docTypeKeywords.map fun e =>
      (e.1, (e.2.filter fun kw => containsSub kw.data lower).length)) ++ [(.generic, 0)]
  let best := scores.foldl (fun a b => if b.2 > a.2 then b else a)
    (.invoice, (docTypeKeywords.headD (.invoice, [])).2.filter
      (fun kw => containsSub kw.data lower) |>.length)
  if best.2 > 0 then best.1 else .generic

-- ─── Language detector (source: `detectLanguage`) ────────────────────────────

def langWords : List (String × List String) :=
  [ ("en", ["the", "and", "for", "with", "from", "this", "that", "are", "have",
      "not", "invoice", "receipt", "payment", "shipping", "price", "quantity",
      "amount", "order", "discount", "street", "phone", "terms"]),
    ("fr", ["le", "la", "les", "de", "du", "un", "une", "avec", "pour", "pas"]),
    ("de", ["der", "die", "das", "und", "für", "mit", "nicht", "ein", "eine"]),
    ("es", ["el", "la", "los", "de", "del", "un", "una", "con", "para", "que"]),
    ("it", ["il", "lo", "la", "e", "di", "del", "un", "una", "con", "per"]) ]

def detectLanguage (text : Str) : Str :=
  let s := lowerS (text.take 800)
  match langWords.find? (fun e => e.2.any fun w => containsWord w.data s) with
  | some e => e.1.data
  | none => "en".data

-- ─── Amount extraction (source: `parseAmount`, `extractLabeledAmount`) ───────

/-- `parseAmount`: strip `[^0-9.]`, `parseFloat`, NaN ↦ 0. -/
def parseAmount (raw : Option Str) : Qv :=
  match raw with
  | none => 0
  | some s =>
    match parseFloatQ (s.filter fun c => isDigitC c || c = '.') with
    | some n => n
    | none => 0

/-- Strip `,` and `parseFloat` (`parseFloat(x.replace(/,/g, ""))`). -/
def parseStripCommas (s : Str) : Option Qv :=
  parseFloatQ (s.filter fun c => c ≠ ',')

/-- The tail of `extractLabeledAmount`'s same-line regex, after the label:
`(?:\s*\([^)]*\))?[\s\-:]*[A-Z$€£₹¥]*\s*([\d,]+\.\d+|[\d,]{2,}(?![/\-]))` (i). -/
def rxAmountAfterLabel : RE :=
  rCat [rOptQ (rCat [.star rWs, rC '(', .star (rNone [fun c => c = ')']), rC ')']),
    .star (.cls fun c => isJsSpace c || c = '-' || c = ':'),
    .star (.cls fun c => isAlphaC c || c = '$' || c = '€' || c = '£' || c = '₹' || c = '¥'),
    .star rWs,
    .grp 1 (.alt
      (rCat [rPlus (.cls fun c => isDigitC c || c = ','), rC '.', rPlus rDigit])
      (rCat [rAtLeast (.cls fun c => isDigitC c || c = ',') 2,
        .nla (.cls fun c => c = '/' || c = '-')]))]

/-- `/[\$€£₹¥]?\s*([\d,]+\.\d{1,4})/`. -/
def rxInlineNum : RE :=
  rCat [rOptQ (rAnyC "$€£₹¥"), .star rWs,
    .grp 1 (rCat [rPlus (.cls fun c => isDigitC c || c = ','), rC '.',
      .rep rDigit 1 4])]

/-- `/^[\$€£₹¥]?\s*([\d,]+\.\d{1,4})\s*$/` — a standalone amount line. -/
def rxStandaloneAmount : RE :=
  rCat [.bos, rOptQ (rAnyC "$€£₹¥"), .star rWs,
    .grp 1 (rCat [rPlus (.cls fun c => isDigitC c || c = ','), rC '.',
      .rep rDigit 1 4]), .star rWs, .eos]

/-- The stop keywords of the multi-line scan:
`/^(?:sub\s*total|subtotal|total|tax|amount|discount|shipping|net|gross|balance|paid|tender|grand)\b/i`. -/
def rxElaStop : RE :=
  rCat [.bos, rOr [rCat [rSI "sub", .star rWs, rSI "total"], rSI "subtotal",
    rSI "total", rSI "tax", rSI "amount", rSI "discount", rSI "shipping",
    rSI "net", rSI "gross", rSI "balance", rSI "paid", rSI "tender",
    rSI "grand"], .wb]

/-- Look ahead up to 4 lines for a standalone amount, stopping at a known
totals keyword. -/
def elaLookahead : List Str → Option Qv
  | [] => none
  | l :: rest =>
    let trimJ := jsTrim l
    if jsTest rxElaStop trimJ then none
    else
      match jsMatchGroup rxStandaloneAmount trimJ 1 with
      | some g =>
        match parseStripCommas g with
        | some n => if n > 0 then some n else elaLookahead rest
        | none => elaLookahead rest
      | none => elaLookahead rest

/-- Phase 2 of `extractLabeledAmount`: label on its own line, value below. -/
def elaLines (label : RE) : List Str → Option Qv
  | [] => none
  | l :: rest =>
    if jsTest label l then
      let afterLabel := removeAll label l
      let inline :=
        match jsMatchGroup rxInlineNum afterLabel 1 with
        | some g =>
          match parseStripCommas g with
          | some n => if n > 0 then some n else none
          | none => none
        | none => none
      match inline with
      | some n => some n
      | none =>
        match elaLookahead (rest.take 4) with
        | some n => some n
        | none => elaLines label rest
    else elaLines label rest

/-- `extractLabeledAmount(text, labelPattern)`; the dynamic label regex is
passed as an `RE`. -/
def extractLabeledAmount (text : Str) (label : RE) : Option Qv :=
  let sameLine :=
    match jsMatchGroup (.seq label rxAmountAfterLabel) text 1 with
    | some g =>
      match parseStripCommas g with
      | some n => if n ≥ 0 then some n else none
      | none => none
    | none => none
  match sameLine with
  | some n => some n
  | none => elaLines label (splitNl text)

-- ─── Date extraction (source: `normaliseDateString`, `extractDates`) ─────────

/-- `/^\d{4}-\d{2}-\d{2}$/` — already ISO. -/
def rxIsoShape : RE :=
  rCat [.bos, .rep rDigit 4 4, rC '-', .rep rDigit 2 2, rC '-',
    .rep rDigit 2 2, .eos]

/-- `/^(\d{1,2})[-\/.](\d{1,2})[-\/.](\d{4})$/`. -/
def rxDmy : RE :=
  rCat [.bos, .grp 1 (.rep rDigit 1 2), rAnyC "-/.",
    .grp 2 (.rep rDigit 1 2), rAnyC "-/.", .grp 3 (.rep rDigit 4 4), .eos]

/-- `padStart(2, "0")`. -/
def pad2 (s : Str) : Str := if s.length < 2 then '0' :: s else s

/-- `normaliseDateString`: ISO passes through; a numeric date with a 4-digit
year is emitted day-first as `YYYY-MM-DD`; anything else (in particular any
2-digit-year value) is returned unchanged.  The `MM/DD/YYYY` branch of the
source uses the same regex as the `DD/MM/YYYY` branch and is therefore
unreachable; it is embedded after it all the same. -/
def normaliseDateString (raw : Str) : Str :=
  if jsTest rxIsoShape raw then raw
  else
    match jsSearch rxDmy raw with
    | some m =>
      let g := fun i => (capStr raw m.2.2 i).getD []
      g 3 ++ '-' :: pad2 (g 2) ++ '-' :: pad2 (g 1)
    | none =>
      match jsSearch rxDmy raw with
      | some m =>
        let g := fun i => (capStr raw m.2.2 i).getD []
        if (parseIntQ (g 1)).getD 0 > 12 then
          g 3 ++ '-' :: pad2 (g 1) ++ '-' :: pad2 (g 2)
        else raw
      | none => raw

/-- The numeric date value shape `(\d{1,4}[-\/. ]\d{1,2}[-\/. ]\d{2,4})`. -/
def rxDateValue : RE :=
  .grp 1 (rCat [.rep rDigit 1 4, rAnyC "-/. ", .rep rDigit 1 2,
    rAnyC "-/. ", .rep rDigit 2 4])

/-- `\s*[:\-]?\s*` between a date label and its value. -/
def rxDateSep : RE :=
  rCat [.star rWs, rOptQ (rAnyC ":-"), .star rWs]

/-- `/(?:invoice\s*date|date\s*of\s*invoice|date\s*issued|issued|date)\s*[:\-]?\s*(value)/i`. -/
def rxInvDate : RE :=
  rCat [rOr [rCat [rSI "invoice", .star rWs, rSI "date"],
    rCat [rSI "date", .star rWs, rSI "of", .star rWs, rSI "invoice"],
    rCat [rSI "date", .star rWs, rSI "issued"], rSI "issued", rSI "date"],
    rxDateSep, rxDateValue]

/-- `/(?:due\s*date|payment\s*due|pay\s*by|payable\s*(?:by|on)|due\s*on)\s*[:\-]?\s*(value)/i`. -/
def rxDueDate : RE :=
  rCat [rOr [rCat [rSI "due", .star rWs, rSI "date"],
    rCat [rSI "payment", .star rWs, rSI "due"],
    rCat [rSI "pay", .star rWs, rSI "by"],
    rCat [rSI "payable", .star rWs, .alt (rSI "by") (rSI "on")],
    rCat [rSI "due", .star rWs, rSI "on"]],
    rxDateSep, rxDateValue]

/-- `/(?:transaction|sale|purchase|order)\s*date\s*[:\-]?\s*(value)/i`. -/
def rxTxDate : RE :=
  rCat [rOr [rSI "transaction", rSI "sale", rSI "purchase", rSI "order"],
    .star rWs, rSI "date", rxDateSep, rxDateValue]

structure DatesFound where
  invoiceDate : Option Str := none
  dueDate : Option Str := none
  transactionDate : Option Str := none
  deriving DecidableEq, Repr

def extractDates (text : Str) : DatesFound :=
  let td : Option Str → Option Str := fun g =>
    match g with
    | some v => if v.isEmpty then none else some (normaliseDateString v)
    | none => none
  let inv := td (jsMatchGroup rxInvDate text 1)
  let due := td (jsMatchGroup rxDueDate text 1)
  let tx := td (jsMatchGroup rxTxDate text 1)
  let inv2 :=
    match inv with
    | some v => some v
    | none =>
      match jsMatchGroup rxDATE_ISO text 0 with
      | some m0 => some (normaliseDateString m0)
      | none => none
  { invoiceDate := inv2, dueDate := due, transactionDate := tx }

-- ─── Phone / email / URL (source: `extractPhones` …) ─────────────────────────

/-- `/^\d{5}-\d{4}$/` — the US ZIP+4 filter. -/
def rxZip4 : RE :=
  rCat [.bos, .rep rDigit 5 5, rC '-', .rep rDigit 4 4, .eos]

def countDigits (s : Str) : Nat := (s.filter isDigitC).length

def extractPhones (text : Str) : List Str :=
  let found := (jsMatchAll rxPHONE text).map (matchStr text)
  dedupeStr ((found.map jsTrim).filter fun p =>
    countDigits p ≥ 7 && !jsTest rxZip4 p)

def extractEmails (text : Str) : List Str :=
  let found := (jsMatchAll rxEMAIL text).map (matchStr text)
  dedupeStr (found.map lowerS)

def extractURLs (text : Str) : List Str :=
  let found := (jsMatchAll rxURL text).map (matchStr text)
  dedupeStr (found.map jsTrim)

-- ─── Address parser (source: `parseAddress`) ─────────────────────────────────

def auStates : List String := ["NSW", "VIC", "QLD", "SA", "WA", "TAS", "ACT", "NT"]

/-- `AU_STATES`: `\b(NSW|VIC|QLD|SA|WA|TAS|ACT|NT)\b` (case-sensitive). -/
def rxAuStates : RE :=
  rCat [.wb, rOr (auStates.map rS), .wb]

/-- `AU_SUBURB_STATE_PC`:
`([A-Za-z][A-Za-z\s]{1,30})\s+(NSW|VIC|QLD|SA|WA|TAS|ACT|NT)\s+(\d{4})`. -/
def rxAuSuburb : RE :=
  rCat [.grp 1 (rCat [.cls isAlphaC,
      .rep (.cls fun c => isAlphaC c || isJsSpace c) 1 30]),
    rPlus rWs, .grp 2 (rOr (auStates.map rS)), rPlus rWs,
    .grp 3 (.rep rDigit 4 4)]

/-- `COUNTRY_CODES`, in insertion order (bare `au` deliberately absent). -/
def countryCodes : List (String × String) :=
  [ ("australia", "AU"), ("united states", "US"), ("usa", "US"),
    ("u.s.a", "US"), ("united kingdom", "GB"), ("uk", "GB"), ("india", "IN"),
    ("canada", "CA"), ("new zealand", "NZ"), ("nz", "NZ"), ("germany", "DE"),
    ("france", "FR"), ("singapore", "SG") ]

/-- `/\b(\d{5}(?:-\d{4})?)\b/`. -/
def rxZipLoose : RE :=
  rCat [.wb, .grp 1 (rCat [.rep rDigit 5 5,
    rOptQ (rCat [rC '-', .rep rDigit 4 4])]), .wb]

/-- `/([A-Za-z ]{2,30}),\s*([A-Z]{2})\s+\d{5}/`. -/
def rxCityStZip : RE :=
  rCat [.grp 1 (.rep (.cls fun c => isAlphaC c || c = ' ') 2 30), rC ',',
    .star rWs, .grp 2 (.rep (.cls isAsciiUpper) 2 2), rPlus rWs,
    .rep rDigit 5 5]

/-- `/^\d{1,5}\s+\w/` — a street line. -/
def rxStreet : RE :=
  rCat [.bos, .rep rDigit 1 5, rPlus rWs, rWordC]

def parseAddress (block : Str) : DLAddress :=
  let lines := ((splitNl block).map jsTrim).filter fun l => !l.isEmpty
  let a0 : DLAddress := {}
  -- Australian suburb STATE postcode pattern
  let a1 : DLAddress :=
    match jsSearch rxAuSuburb block with
    | some m =>
      { a0 with
        city := (capStr block m.2.2 1).map jsTrim,
        state := capStr block m.2.2 2,
        postalCode := capStr block m.2.2 3,
        country := some "AU".data }
    | none => a0
  -- Country detection
  let a2 : DLAddress :=
    if a1.country.isSome then a1
    else
      let lower := lowerS block
      match countryCodes.find? (fun e => containsSub e.1.data lower) with
      | some e => { a1 with country := some e.2.data }
      | none => a1
  -- US ZIP + city/state
  let a3 : DLAddress :=
    if a2.postalCode.isSome then a2
    else
      let z := match jsMatchGroup rxZipLoose block 1 with
        | some g => { a2 with postalCode := some g }
        | none => a2
      match jsSearch rxCityStZip block with
      | some m =>
        let city := (capStr block m.2.2 1).map jsTrim
        let st := capStr block m.2.2 2
        let z1 := { z with city := city, state := st }
        let z2 :=
          if z1.country = some "AU".data &&
             !(match st with | some s => jsTest rxAuStates s | none => false) then
            { z1 with country := some "US".data }
          else z1
        if z2.country.isNone then { z2 with country := some "US".data } else z2
      | none => z
  -- Street: first line with a leading number, longer than 5 characters
  let a4 : DLAddress :=
    match lines.find? (fun l => jsTest rxStreet l && l.length > 5) with
    | some l => { a3 with street := some l }
    | none => a3
  -- fullAddress
  let cityState : Option Str :=
    if truthyS a4.city && truthyS a4.state then
      some ((a4.city.getD []) ++ ' ' :: (a4.state.getD []))
    else a4.city <|> a4.state
  let parts := ([a4.street, cityState, a4.postalCode, a4.country].filter truthyS).map
    (fun o => o.getD [])
  if parts.length > 0 then { a4 with fullAddress := some (joinSep ", ".data parts) }
  else a4

-- ─── Tax information (source: `extractTaxInformation`) ───────────────────────

def extractTaxInformation (text : Str) : Option DLTaxInformation :=
  let t0 : DLTaxInformation := {}
  let t1 := match jsMatchGroup rxABN text 1 with
    | some g =>
      { t0 with abnNumber := some ("ABN: ".data ++ jsTrim (collapseWs g)) }
    | none => t0
  let t2 := match jsMatchGroup rxACN text 1 with
    | some g => { t1 with acnNumber := some (jsTrim (collapseWs g)) }
    | none => t1
  let t3 := match jsMatchGroup rxGST_AU text 1 with
    | some g => { t2 with gstNumber := some (jsTrim g) }
    | none => t2
  let t4 := match jsMatchGroup rxEIN text 1 with
    | some g => { t3 with taxId := some g }
    | none => t3
  let t5 := match jsMatchGroup rxVAT text 1 with
    | some g => { t4 with vatNumber := some (g.filter fun c => !isJsSpace c) }
    | none => t4
  let t6 := match jsMatchGroup rxGSTIN text 1 with
    | some g => { t5 with gstNumber := some g }
    | none => t5
  if t6 = ({} : DLTaxInformation) then none else some t6

-- ─── Supplier builder (source: `buildSupplier`) ──────────────────────────────

/-- `/\d{8,}/` — 8+ consecutive digits (date/document-ID shape). -/
def rxEightDigits : RE := .rep rDigit 8 8

def isPhoneLike (p : Str) : Bool :=
  let digits := countDigits p
  if digits < 7 || digits > 15 then false
  else if jsTest rxEightDigits p then false
  else true

def buildSupplier (nameHint : Option Str) (headerBlock : Str) : DLSupplier :=
  let phones := extractPhones headerBlock
  let emails := extractEmails headerBlock
  let urls := extractURLs headerBlock
  let address := parseAddress headerBlock
  let taxInfo := extractTaxInformation headerBlock
  let formattedPhone := phones.find? fun p =>
    p.any (fun c => c = '(' || c = ')' || c = '-' || c = '.' || c = ' ') &&
    countDigits p ≥ 10 && isPhoneLike p
  let fallbackPhone := phones.find? isPhoneLike
  let contact : DLContact :=
    { phone := formattedPhone <|> fallbackPhone,
      email := emails.head?, website := urls.head? }
  { name := nameHint.getD [], address := address, contact := contact,
    taxInformation := taxInfo }

-- ─── Buyer builder (source: `buildBuyer`) ────────────────────────────────────

/-- `buildBuyer`'s `skipRx` (section labels that are not names). -/
def rxBuyerSkip : RE :=
  rCat [.bos, rOr [
      rCat [rSI "bill", .star rWs, rSI "to"],
      rCat [rSI "billed", .star rWs, rSI "to"],
      rSI "customer", rSI "buyer",
      rCat [rSI "sold", .star rWs, rSI "to"],
      rCat [rSI "ship", .star rWs, rSI "to"],
      rCat [rSI "deliver", .star rWs, rSI "to"],
      rSI "attn", rSI "attention", rSI "client",
      rCat [rSI "account", .star rWs, .alt (rSI "name") (rSI "holder")],
      rSI "purchaser",
      rCat [rSI "customer", .star rWs,
        rOr [rSI "name", rCat [rSI "detail", rOptQ (rCI 's')],
          rCat [rSI "info", rOptQ (rSI "rmation")]]]],
    .star rWs, rOptQ (rAnyC ":."), .star rWs, .eos]

/-- `buildBuyer`'s inline label: `^(?:bill\s*to|…|purchaser)\s*[:.]\s*(.+)` (i). -/
def rxBuyerInline : RE :=
  rCat [.bos, rOr [
      rCat [rSI "bill", .star rWs, rSI "to"],
      rCat [rSI "billed", .star rWs, rSI "to"],
      rCat [rSI "customer", rOptQ (rCat [.star rWs, rSI "name"])],
      rSI "buyer",
      rCat [rSI "sold", .star rWs, rSI "to"],
      rCat [rSI "ship", .star rWs, rSI "to"],
      rCat [rSI "deliver", .star rWs, rSI "to"],
      rSI "attn", rSI "attention", rSI "client",
      rCat [rSI "account", .star rWs, .alt (rSI "name") (rSI "holder")],
      rSI "purchaser"],
    .star rWs, rAnyC ":.", .star rWs, .grp 1 (rPlus rDot)]

/-- `/^[\d\s\-().+$€£₹¥,]+$/` — a purely numeric / amount / phone-ish line. -/
def rxPureNumberish : RE :=
  rCat [.bos, rPlus (.cls fun c => isDigitC c || isJsSpace c || c = '-' ||
    c = '(' || c = ')' || c = '.' || c = '+' || c = '$' || c = '€' ||
    c = '£' || c = '₹' || c = '¥' || c = ','), .eos]

/-- `/^[\w.+-]+@[\w.-]+$/`. -/
def rxEmailLine : RE :=
  rCat [.bos, rPlus (.cls fun c => isWordC c || c = '.' || c = '+' || c = '-'),
    rC '@', rPlus (.cls fun c => isWordC c || c = '.' || c = '-'), .eos]

/-- `/^https?:\/\//` and `/^www\./`. -/
def rxUrlStart : RE :=
  rCat [.bos, rSI "http", rOptQ (rCI 's'), rS "://"]

def rxWwwStart : RE := rCat [.bos, rSI "www."]

/-- `/^(?:attn|attention)[:.]\s*/i`. -/
def rxAttnStrip : RE :=
  rCat [.bos, .alt (rSI "attn") (rSI "attention"), rAnyC ":.", .star rWs]

def buildBuyer (block : Str) : DLBuyer :=
  let lines := ((splitNl block).map jsTrim).filter fun l => !l.isEmpty
  let phones := extractPhones block
  let emails := extractEmails block
  let address := parseAddress block
  -- 1. inline label on a line
  let inlineName : Option Str := lines.findSome? fun line =>
    match jsMatchGroup rxBuyerInline line 1 with
    | some g => if (jsTrim g).length > 2 then some (jsTrim g) else none
    | none => none
  -- 2. fallback: first meaningful line
  let name0 : Option Str :=
    match inlineName with
    | some n => some n
    | none =>
      lines.find? fun l =>
        !jsTest rxBuyerSkip l && l.length > 2 && !jsTest rxPureNumberish l &&
        !jsTest rxEmailLine l && !jsTest rxUrlStart l && !jsTest rxWwwStart l
  -- 3. strip Attn:/Attention: prefix
  let name := name0.map fun n => jsTrim (removeFirst rxAttnStrip n)
  let baddr : DLBuyerAddress :=
    { fullAddress := some (address.fullAddress.getD (joinSep ", ".data lines)) }
  let bcontact : DLBuyerContact := { phone := phones.head?, email := emails.head? }
  { name := name, address := some baddr, contact := some bcontact }

-- ─── Line item parser (source: `parseLineItem`) ──────────────────────────────

/-- `SUMMARY_LINE_RX`. -/
def rxSummaryLine : RE :=
  rCat [.bos, rOr [
      rCat [rSI "sub", .star rWs, rSI "total"], rSI "subtotal", rSI "total",
      rSI "tax", rSI "gst", rSI "vat", rSI "hst", rSI "pst", rSI "shipping",
      rSI "delivery", rSI "freight", rSI "discount", rSI "rebate",
      rSI "balance",
      rCat [rSI "amount", rPlus rWs, rSI "due"],
      rCat [rSI "amount", rPlus rWs, rSI "paid"],
      rCat [rSI "total", rPlus rWs, rSI "amount"],
      rCat [rSI "change", rPlus rWs, rSI "due"],
      rSI "rounding", rSI "tip", rSI "gratuity",
      rCat [rSI "net", rPlus rWs, rSI "amount"],
      rSI "gross", rSI "payment", rSI "paid", rSI "tendered", rSI "change",
      rSI "due", rSI "owing"], .wb]

/-- `HEADER_LINE_RX` (not anchored). -/
def rxHeaderLine : RE :=
  rCat [rOr [rSI "description",
      rCat [rSI "item", .star rWs, rSI "name"], rSI "item", rSI "qty",
      rSI "quantity",
      rCat [rSI "unit", .star rWs, rSI "price"],
      rCat [rSI "unit", .star rWs, rSI "cost"],
      rSI "price", rSI "amount", rSI "total", rSI "tax", rSI "sku",
      rSI "product", rSI "service", rSI "particular", rSI "uom",
      rCat [rSI "unit", .star rWs, rSI "of", .star rWs, rSI "measure"],
      rSI "rate", rCat [rSI "no", rOptQ (rC '.')]], .wb]

/-- `parseLineItem`'s number token:
`([\$€£₹¥]\s*)?(\d{1,3}(?:,\d{3})*(?:\.\d{1,4})?)\s*(%)?` (g). -/
def rxNumToken : RE :=
  rCat [rOptQ (.grp 1 (rCat [rAnyC "$€£₹¥", .star rWs])),
    .grp 2 (rCat [.rep rDigit 1 3, .star (rCat [rC ',', .rep rDigit 3 3]),
      rOptQ (rCat [rC '.', .rep rDigit 1 4])]),
    .star rWs, rOptQ (.grp 3 (rC '%'))]

/-- The trailing-numeric-cluster strip used for name fallback:
`/[\s]*(?:[\$€£₹¥]?\s*\d[\d,.\s%×xX@*]*)(?:\s+(?:[\$€£₹¥]?\s*\d[\d,.\s%×xX@*]*))*\s*$/`. -/
def rxNameTrailNums : RE :=
  let cluster := rCat [rOptQ (rAnyC "$€£₹¥"), .star rWs, rDigit,
    .star (.cls fun c => isDigitC c || c = ',' || c = '.' || isJsSpace c ||
      c = '%' || c = Char.ofNat 0xd7 || c = 'x' || c = 'X' || c = '@' || c = '*')]
  rCat [.star rWs, cluster, .star (rCat [rPlus rWs, cluster]), .star rWs, .eos]

/-- `/^\d{1,3}[.)\s]+\s*/` — leading row/line number. -/
def rxRowNum : RE :=
  rCat [.bos, .rep rDigit 1 3,
    rPlus (.cls fun c => c = '.' || c = ')' || isJsSpace c), .star rWs]

/-- The dynamic SKU-strip regex
`(?:SKU|Part\s*(?:No|#))\s*[:.]?\s*${escapedSku}` (i). -/
def rxSkuStrip (sk : Str) : RE :=
  rCat [.alt (rSI "sku") (rCat [rSI "part", .star rWs, .alt (rSI "no") (rC '#')]),
    .star rWs, rOptQ (rAnyC ":."), .star rWs,
    rCat (sk.map fun c => rCI (lowerC c))]

/-- `/\s{2,}/` — the column splitter. -/
def rxTwoSpaces : RE := rAtLeast rWs 2

/-- The `qty × unitPrice ≈ total` pair search: every ordered pair `(qi, pi)`
with relative error `< 0.05`, keeping the strictly best error (qi-major,
pi-minor iteration order, as in the source). -/
def bestPair (nums : List Qv) (total : Qv) : Option (Nat × Nat) :=
  let pairs := (List.range nums.length).flatMap fun qi =>
    (List.range nums.length).map fun pi => (qi, pi)
  let best := pairs.foldl (fun best qp =>
    if qp.1 = qp.2 then best
    else
      let q := nums.getD qp.1 0
      let p := nums.getD qp.2 0
      let err := Qv.abs (q * p - total) / max total 1
      if err < 1/20 then
        match best with
        | none => some (qp.1, qp.2, err)
        | some b => if err < b.2.2 then some (qp.1, qp.2, err) else best
      else best) none
  best.map fun b => (b.1, b.2.1)

/-- Numeric tokens of a line with their `%` flag. -/
def numTokensOf (trimmed : Str) : List (Qv × Bool) :=
  (jsMatchAll rxNumToken trimmed).filterMap fun m =>
    match capStr trimmed m.2.2 2 with
    | some g2 =>
      match parseStripCommas g2 with
      | some v =>
        if v > 0 then some (v, (capStr trimmed m.2.2 3).isSome) else none
      | none => none
    | none => none

/-- Steps 6 of `parseLineItem`: the item-name extraction. -/
def lineItemName (trimmed : Str) (sku : Option Str) : Str :=
  let segments := jsSplit rxTwoSpaces trimmed
  let n0 :=
    match segments.find? (fun seg => jsTest rxTwoAlpha seg) with
    | some seg => jsTrim seg
    | none => []
  let n1 :=
    if n0.length < 2 then jsTrim (removeFirst rxNameTrailNums trimmed) else n0
  let n2 :=
    match sku with
    | some sk =>
      if containsSub sk n1 then
        let m1 := jsTrim (removeFirst (rxSkuStrip sk) n1)
        let m2 := if containsSub sk m1 then jsTrim (removeFirstSub sk m1) else m1
        if m2.isEmpty then (jsSplit rxTwoSpaces trimmed).headD (trimmed.take 40)
        else m2
      else n1
    | none => n1
  let n3 := jsTrim (removeFirst rxRowNum n2)
  if n3.length < 2 then (jsSplit rxTwoSpaces trimmed).headD (trimmed.take 40)
  else n3

/-- Step 7 of `parseLineItem`: disambiguate (quantity, unitPrice, taxAmount)
from the numbers before the total. -/
def disambiguate (nums : List Qv) (totalAmount : Qv) (taxPct : Option Qv) :
    Qv × Option Qv × Option Qv :=
  if nums.length ≥ 2 then
    match bestPair nums totalAmount with
    | some qp =>
      let q := nums.getD qp.1 0
      let p := nums.getD qp.2 0
      let remaining := (nums.enum.filter fun e => e.1 ≠ qp.1 ∧ e.1 ≠ qp.2).map (·.2)
      (q, some p, if remaining.length = 1 then remaining.head? else none)
    | none =>
      let qtyCand := nums.find? fun n => isIntegerQ n && n < 10000 &&
        (match taxPct with | some tp => n ≠ tp | none => true)
      match qtyCand with
      | some q =>
        (q, nums.reverse.find? (fun n => n ≠ q &&
          (match taxPct with | some tp => n ≠ tp | none => true)), none)
      | none => (1, nums.getLast?, none)
  else
    match nums with
    | [n] =>
      if isIntegerQ n && n < 10000 && n > 0 then
        let inferredPrice := totalAmount / n
        if inferredPrice ≥ 1/100 then (n, some (round4 inferredPrice), none)
        else (1, some n, none)
      else (1, some n, none)
    | _ => (1, none, none)

def parseLineItem (line : Str) (_lineNum : Nat) (defaultTaxPct : Option Qv) :
    Option DLPart :=
  let trimmed := jsTrim line
  if trimmed.isEmpty || trimmed.length < 4 then none
  else if jsTest rxSummaryLine trimmed then none
  else if jsTest rxHeaderLine trimmed && !hasDigit trimmed then none
  else
    let numTokens := numTokensOf trimmed
    if numTokens.isEmpty then none
    else
      let taxPct : Option Qv :=
        match numTokens.find? (·.2) with
        | some t => some t.1
        | none =>
          match jsMatchGroup rxTAX_PERCENT trimmed 1 with
          | some g => parseFloatQ g
          | none => none
      let sku : Option Str :=
        match jsMatchGroup rxSKU_LABELED trimmed 1 with
        | some g => some g
        | none => jsMatchGroup rxSKU_BARE trimmed 1
      let candidateNums := (numTokens.filter fun t =>
        !t.2 && (match taxPct with | some tp => t.1 ≠ tp | none => true)).map (·.1)
      if candidateNums.isEmpty then none
      else
        let totalAmount := candidateNums.getLastD 0
        if totalAmount ≤ 0 ∨ totalAmount > 9999999 then none
        else
          let itemName := lineItemName trimmed sku
          let nums := candidateNums.dropLast
          let dqt := disambiguate nums totalAmount taxPct
          let quantity := dqt.1
          let unitPrice0 := dqt.2.1
          let taxAmount0 := dqt.2.2
          let unitPrice :=
            match unitPrice0 with
            | some u => some u
            | none =>
              if quantity > 0 ∧ totalAmount > 0 then
                some (round4 (totalAmount / quantity))
              else none
          let taxAmount1 :=
            match taxAmount0, taxPct, unitPrice with
            | none, some tp, some up =>
              some (round4 (quantity * up * (tp / 100)))
            | _, _, _ => taxAmount0
          let (taxPctF, taxAmountF) :=
            match taxAmount1, defaultTaxPct, unitPrice with
            | none, some dp, some up =>
              (some dp, some (round4 (quantity * up * (dp / 100))))
            | _, _, _ => (taxPct, taxAmount1)
          let part : DLPart :=
            { itemName := itemName, sku := sku, quantity := quantity,
              unitPrice := unitPrice.map round4,
              taxPercentage := taxPctF, taxAmount := taxAmountF,
              totalAmount := round4 totalAmount }
          some part

-- ─── RuleBasedParser: segmentation (source: `segmentDocument`) ───────────────

/-- `bodyStartKeywords`:
`^(?:description|item|qty|quantity|part\s*(?:no|#)|sku|unit\s*price|amount|total|bill\s*to|ship\s*to|customer|product|service|particular|rate|no\.?\s|sr\.?\s*no)` (i). -/
def rxBodyStart : RE :=
  rCat [.bos, rOr [rSI "description", rSI "item", rSI "qty", rSI "quantity",
    rCat [rSI "part", .star rWs, .alt (rSI "no") (rC '#')], rSI "sku",
    rCat [rSI "unit", .star rWs, rSI "price"], rSI "amount", rSI "total",
    rCat [rSI "bill", .star rWs, rSI "to"],
    rCat [rSI "ship", .star rWs, rSI "to"], rSI "customer", rSI "product",
    rSI "service", rSI "particular", rSI "rate",
    rCat [rSI "no", rOptQ (rC '.'), rWs],
    rCat [rSI "sr", rOptQ (rC '.'), .star rWs, rSI "no"]]]

/-- The segmenter's table-header keywords. -/
def segTableHeaderKws : List String :=
  ["description", "item", "qty", "quantity", "unit price", "price", "amount",
   "total", "tax", "sku", "product", "rate", "particular"]

/-- `footerKeywords`:
`^(?:sub\s*total|subtotal|total|tax|gst|vat|shipping|delivery|discount|balance|amount\s+due|net\s+amount|gross\s+amount|grand\s+total)` (i). -/
def rxFooterKw : RE :=
  rCat [.bos, rOr [rCat [rSI "sub", .star rWs, rSI "total"], rSI "subtotal",
    rSI "total", rSI "tax", rSI "gst", rSI "vat", rSI "shipping",
    rSI "delivery", rSI "discount", rSI "balance",
    rCat [rSI "amount", rPlus rWs, rSI "due"],
    rCat [rSI "net", rPlus rWs, rSI "amount"],
    rCat [rSI "gross", rPlus rWs, rSI "amount"],
    rCat [rSI "grand", rPlus rWs, rSI "total"]]]

/-- Header end: the first of the first 25 lines matching a body-start
keyword; if none, `min(8, total)`; then the table-header rescue scan. -/
def headerEndOf (lines : List Str) : Nat :=
  let total := lines.length
  let he0 :=
    match (lines.take (min 25 total)).findIdx? (jsTest rxBodyStart) with
    | some i => i
    | none => min 8 total
  if he0 = min 8 total then
    match (lines.take (min 25 total)).findIdx? (fun l =>
      (segTableHeaderKws.filter fun kw => containsSub kw.data (lowerS l)).length ≥ 2) with
    | some i => i
    | none => he0
  else he0

/-- Footer start: the first line at index `> 35%` of the document (scanning
from the header end) matching a totals keyword; otherwise
`max(⌊75%⌋, total − 15)`. -/
def footerStartOf (lines : List Str) : Nat :=
  let total := lines.length
  let headerEnd := headerEndOf lines
  match (lines.enum.drop headerEnd).find? (fun e =>
      jsTest rxFooterKw e.2 && 20 * e.1 > 7 * total) with
  | some e => e.1
  | none => max (3 * total / 4) (total - 15)

structure Segmented where
  headerLines : List Str
  bodyLines : List Str
  footerLines : List Str
  deriving DecidableEq, Repr

/-- `segmentDocument` — the three `slice`s. -/
def segmentDocument (lines : List Str) : Segmented :=
  let headerEnd := headerEndOf lines
  let footerStart := footerStartOf lines
  { headerLines := lines.take headerEnd,
    bodyLines := (lines.drop headerEnd).take (footerStart - headerEnd),
    footerLines := lines.drop footerStart }

-- ─── RuleBasedParser: supplier name (source: `extractSupplierName`) ──────────

/-- `CORP_SUFFIX_RX`. -/
def rxCorpSuffix : RE :=
  rCat [.wb, rOr [
    rCat [rSI "pty", rOptQ (rC '.'), .star rWs, rSI "ltd"],
    rCat [rSI "inc", rOptQ (rC '.')], rCat [rSI "llc", rOptQ (rC '.')],
    rCat [rSI "ltd", rOptQ (rC '.')], rCat [rSI "co", rOptQ (rC '.')],
    rCat [rSI "corp", rOptQ (rC '.')], rSI "company", rSI "group",
    rSI "services", rSI "solutions",
    rCat [rSI "enterprise", rOptQ (rCI 's')],
    rCat [rSI "holding", rOptQ (rCI 's')], rSI "industries", rSI "gmbh",
    rSI "bv", rSI "sa"], .wb]

/-- `SKIP_HEADER_WORDS`. -/
def rxSkipHeader : RE :=
  rCat [.bos, rOr [rSI "invoice",
    rCat [rSI "tax", rPlus rWs, rSI "invoice"], rSI "receipt", rSI "bill",
    rSI "quote", rSI "statement", rSI "date",
    rCat [rSI "no", rOptQ (rC '.')], rSI "number", rSI "page",
    rCat [rSI "purchase", rPlus rWs, rSI "order"], rSI "delivery",
    rSI "packing", rSI "from", rSI "to"], .wb]

/-- `/^[A-Z][A-Z\s&.,'-]{4,}$/` — an ALL-CAPS company-name line. -/
def rxAllCaps : RE :=
  rCat [.bos, .cls isAsciiUpper,
    rAtLeast (.cls fun c => isAsciiUpper c || isJsSpace c || c = '&' ||
      c = '.' || c = ',' || c = Char.ofNat 39 || c = '-') 4, .eos]

def extractSupplierName (headerLines : List Str) : Option Str :=
  if headerLines.isEmpty then none
  else
    let candidates := headerLines.take 8
    let p1 := candidates.find? fun l =>
      !(l.length < 3 || l.length > 60) && !jsTest rxSkipHeader l &&
      jsTest rxAllCaps l
    match p1 with
    | some l => some (jsTrim l)
    | none =>
      let best := candidates.foldl (fun acc l =>
        if l.length < 3 then acc
        else if jsTest rxSkipHeader l then acc
        else if jsTest rxCorpSuffix l then
          match acc with
          | none => some (jsTrim l)
          | some b => if l.length < b.length then some (jsTrim l) else acc
        else acc) none
      match best with
      | some b => some b
      | none => candidates.find? fun l =>
          l.length > 3 && l.length ≤ 60 && !jsTest rxSkipHeader l

-- ─── RuleBasedParser: buyer section (source: `extractBuyer`) ─────────────────

/-- `skipLineRx`:
`customer\s+signature|agree\s+to\s+pay|card\s+issuer|all\s+goods\s+returned|napa\s+cash` (i). -/
def rxBuyerSkipLine : RE :=
  rOr [rCat [rSI "customer", rPlus rWs, rSI "signature"],
    rCat [rSI "agree", rPlus rWs, rSI "to", rPlus rWs, rSI "pay"],
    rCat [rSI "card", rPlus rWs, rSI "issuer"],
    rCat [rSI "all", rPlus rWs, rSI "goods", rPlus rWs, rSI "returned"],
    rCat [rSI "napa", rPlus rWs, rSI "cash"]]

/-- `sectionKeywords` — a standalone buyer-section label line. -/
def rxBuyerSection : RE :=
  rCat [.bos, rOr [
    rCat [rSI "bill", .star rWs, rSI "to"],
    rCat [rSI "billed", .star rWs, rSI "to"], rSI "buyer",
    rCat [rSI "customer", rOptQ (rCat [.star rWs,
      rOr [rSI "name", rCat [rSI "detail", rOptQ (rCI 's')],
        rCat [rSI "info", rOptQ (rSI "rmation")]]])],
    rCat [rSI "sold", .star rWs, rSI "to"],
    rCat [rSI "ship", .star rWs, rSI "to"],
    rCat [rSI "deliver", .star rWs, rSI "to"], rSI "client", rSI "purchaser",
    rCat [rSI "account", .star rWs, rSI "holder"]],
    .star rWs, .star (rAnyC ":."), .star rWs, .eos]

/-- The parser-level inline label `"Bill To: Company"` (`[:.]?` then `\s+`). -/
def rxBuyerInlineP : RE :=
  rCat [.bos, rOr [
    rCat [rSI "bill", .star rWs, rSI "to"],
    rCat [rSI "billed", .star rWs, rSI "to"], rSI "buyer",
    rCat [rSI "customer", rOptQ (rCat [.star rWs, rSI "name"])],
    rCat [rSI "sold", .star rWs, rSI "to"],
    rCat [rSI "ship", .star rWs, rSI "to"],
    rCat [rSI "deliver", .star rWs, rSI "to"], rSI "client", rSI "purchaser",
    rCat [rSI "account", .star rWs, rSI "holder"]],
    .star rWs, rOptQ (rAnyC ":."), rPlus rWs, .grp 1 (rPlus rDot)]

/-- `/^(?:attn|attention)\s*[:.]+\s*(.+)/i`. -/
def rxAttnLine : RE :=
  rCat [.bos, .alt (rSI "attn") (rSI "attention"), .star rWs,
    rPlus (rAnyC ":."), .star rWs, .grp 1 (rPlus rDot)]

/-- The scan for the buyer block: first non-skip line carrying an inline
label (whose captured value passes the skip filter) or a standalone section
label; returns the section start and the inline name, if any. -/
def buyerSectionScan : Nat → List Str → Option (Nat × Option Str)
  | _, [] => none
  | i, l :: rest =>
    if jsTest rxBuyerSkipLine l then buyerSectionScan (i + 1) rest
    else
      let inline :=
        match jsMatchGroup rxBuyerInlineP l 1 with
        | some g =>
          if (jsTrim g).length > 2 && !jsTest rxBuyerSkipLine g then
            some (jsTrim g)
          else none
        | none => none
      match inline with
      | some g => some (i + 1, some g)
      | none =>
        if jsTest rxBuyerSection l then some (i + 1, none)
        else buyerSectionScan (i + 1) rest

def extractBuyer (_fullText : Str) (lines : List Str) : DLBuyer :=
  match buyerSectionScan 0 lines with
  | some (sectionStart, inlineName) =>
    let block := joinNl ((lines.drop sectionStart).take 8)
    let buyer := buildBuyer block
    match inlineName with
    | some n => { buyer with name := some n }
    | none => buyer
  | none =>
    match lines.findSome? (fun l =>
        match jsMatchGroup rxAttnLine l 1 with
        | some g => if (jsTrim g).length > 2 then some (jsTrim g) else none
        | none => none) with
    | some n => { name := some n }
    | none => {}

-- ─── RuleBasedParser: transaction (source: `extractTransaction`) ─────────────

/-- `[A-Z0-9][\w\-\/]` value token classes (i). -/
def rxValHead : RE := .cls fun c => isAlphaC c || isDigitC c

def rxValTail : RE := .cls fun c => isWordC c || c = '-' || c = '/'

/-- The invoice-number regex `invRx` (same-line, `[^\S\n]` separators). -/
def rxInv : RE :=
  rCat [rOr [
      rCat [rSI "invoice", .star rWsNoNl,
        rOr [rCat [rSI "no", rOptQ (rC '.')], rC '#', rSI "number"],
        .star rWsNoNl, rOptQ (rC ':')],
      rCat [rSI "tax", rPlus rWsNoNl, rSI "invoice", .star rWsNoNl,
        rOr [rCat [rSI "no", rOptQ (rC '.')], rC '#'],
        .star rWsNoNl, rOptQ (rC ':')],
      rCat [rSI "inv", .star rWsNoNl, rAnyC "#:"],
      rCat [rSI "einvoice", .star rWsNoNl, rAnyC "#:"]],
    .star rWsNoNl, .grp 1 (rCat [rxValHead, .rep rxValTail 1 30])]

/-- `/^\s*(?:invoice\s*(?:no\.?|#|number)|einvoice\s*[#:]?)\s*:?\s*$/i`. -/
def rxInvLabelOnly : RE :=
  rCat [.bos, .star rWs, rOr [
      rCat [rSI "invoice", .star rWs,
        rOr [rCat [rSI "no", rOptQ (rC '.')], rC '#', rSI "number"]],
      rCat [rSI "einvoice", .star rWs, rOptQ (rAnyC "#:")]],
    .star rWs, rOptQ (rC ':'), .star rWs, .eos]

/-- `/^[A-Z0-9][\w\-\/]{1,30}$/i` — the multi-line value shape. -/
def rxValShape : RE :=
  rCat [.bos, rxValHead, .rep rxValTail 1 30, .eos]

/-- The PO-number regex `poRx`. -/
def rxPo : RE :=
  rCat [rOr [
      rCat [rCI 'p', rOptQ (rC '.'), rCI 'o', rOptQ (rC '.'),
        .star rWsNoNl, rPlus (rAnyC "#:")],
      rCat [rSI "purchase", .star rWsNoNl, rSI "order", .star rWsNoNl,
        rOr [rCat [rSI "no", rOptQ (rC '.')], rC '#', rSI "number"],
        .star rWsNoNl, .star (rAnyC "#:")]],
    .star rWsNoNl, rOptQ (rC ':'), .star rWsNoNl,
    .grp 1 (rCat [rxValHead, .rep rxValTail 1 30])]

/-- `/^\s*(?:p\.?o\.?\s*[#:]?|purchase\s*order\s*(?:no\.?|#|number)?)\s*:?\s*$/i`. -/
def rxPoLabelOnly : RE :=
  rCat [.bos, .star rWs, rOr [
      rCat [rCI 'p', rOptQ (rC '.'), rCI 'o', rOptQ (rC '.'),
        .star rWs, rOptQ (rAnyC "#:")],
      rCat [rSI "purchase", .star rWs, rSI "order", .star rWs,
        rOptQ (rOr [rCat [rSI "no", rOptQ (rC '.')], rC '#', rSI "number"])]],
    .star rWs, rOptQ (rC ':'), .star rWs, .eos]

/-- `/(?:quote|quotation|estimate)\s*[#:]\s*([A-Z0-9][\w\-\/]{1,20})/i`. -/
def rxQuote : RE :=
  rCat [rOr [rSI "quote", rSI "quotation", rSI "estimate"], .star rWs,
    rAnyC "#:", .star rWs, .grp 1 (rCat [rxValHead, .rep rxValTail 1 20])]

/-- `payRx` with the `payment(?!\s*terms?)` negative lookahead. -/
def rxPay : RE :=
  rCat [rOr [
      rCat [rSI "payment", .star rWs,
        rOr [rSI "method", rSI "mode", rSI "via", rSI "by"]],
      rCat [rSI "paid", .star rWs, .alt (rSI "via") (rSI "by")],
      rCat [rSI "payment",
        .nla (rCat [.star rWs, rSI "term", rOptQ (rCI 's')])]],
    .star rWs, rOptQ (rAnyC ":-"), .star rWs,
    .grp 1 (rCat [.cls isAlphaC,
      .rep (.cls fun c => isAlphaC c || isJsSpace c || c = '/') 2 30])]

/-- `/(?:terms?|payment\s*terms?)\s*[:\-]?\s*(net\s*\d+|cod|eft|prepaid|due\s*on\s*receipt)/i`. -/
def rxTerms : RE :=
  rCat [rOr [rCat [rSI "term", rOptQ (rCI 's')],
      rCat [rSI "payment", .star rWs, rSI "term", rOptQ (rCI 's')]],
    .star rWs, rOptQ (rAnyC ":-"), .star rWs,
    .grp 1 (rOr [rCat [rSI "net", .star rWs, rPlus rDigit], rSI "cod",
      rSI "eft", rSI "prepaid",
      rCat [rSI "due", .star rWs, rSI "on", .star rWs, rSI "receipt"]])]

/-- `/\b(\d{1,2}:\d{2}(?::\d{2})?\s*(?:AM|PM)?)\b/i`. -/
def rxTime : RE :=
  rCat [.wb, .grp 1 (rCat [.rep rDigit 1 2, rC ':', .rep rDigit 2 2,
    rOptQ (rCat [rC ':', .rep rDigit 2 2]), .star rWs,
    rOptQ (.alt (rSI "am") (rSI "pm"))]), .wb]

/-- The multi-line label fallback: a label-only line, value within 2 lines. -/
def multiLineLabelScan (labelOnly : RE) : List Str → Option Str
  | [] => none
  | [_] => none
  | l :: rest =>
    if jsTest labelOnly l then
      match (rest.take 2).findSome? (fun v =>
          let val := jsTrim v
          if !val.isEmpty && jsTest rxValShape val then some val else none) with
      | some v => some v
      | none => multiLineLabelScan labelOnly rest
    else multiLineLabelScan labelOnly rest

def extractTransaction (fullText : Str) (currencyCode : Str) : DLTransaction :=
  let invoiceNumber :=
    match jsMatchGroup rxInv fullText 1 with
    | some g => some (jsTrim g)
    | none => multiLineLabelScan rxInvLabelOnly (splitNl fullText)
  let purchaseOrderNumber :=
    match jsMatchGroup rxPo fullText 1 with
    | some g => some (jsTrim g)
    | none => multiLineLabelScan rxPoLabelOnly (splitNl fullText)
  let quoteNumber := (jsMatchGroup rxQuote fullText 1).map jsTrim
  let dates := extractDates fullText
  let paymentMode :=
    match jsMatchGroup rxPay fullText 1 with
    | some g => if g.isEmpty then none else some (collapseWs (jsTrim g))
    | none => none
  let paymentTerms := (jsMatchGroup rxTerms fullText 1).map jsTrim
  let transactionTime := jsMatchGroup rxTime fullText 1
  { invoiceNumber := invoiceNumber,
    purchaseOrderNumber := purchaseOrderNumber,
    quoteNumber := quoteNumber,
    invoiceDate := dates.invoiceDate,
    dueDate := dates.dueDate,
    transactionDate := dates.transactionDate,
    transactionTime := transactionTime,
    paymentMode := paymentMode,
    paymentTerms := paymentTerms,
    currency := some currencyCode }

-- ─── RuleBasedParser: column-table extractor (source: `extractFromColumnTable`) ─

/-- The column extractor's header keywords. -/
def colHeaderKws : List String :=
  ["description", "item", "qty", "quantity", "unit price", "unit cost",
   "price", "amount", "total", "tax", "sku", "product", "service",
   "particular", "rate", "no."]

/-- The column extractor's footer row:
`^(sub\s*total|subtotal|total|grand\s*total|gst|tax|vat|shipping|discount|balance|net\s+amount|gross|amount\s+due)` (i). -/
def rxColFooter : RE :=
  rCat [.bos, rOr [rCat [rSI "sub", .star rWs, rSI "total"], rSI "subtotal",
    rSI "total", rCat [rSI "grand", .star rWs, rSI "total"], rSI "gst",
    rSI "tax", rSI "vat", rSI "shipping", rSI "discount", rSI "balance",
    rCat [rSI "net", rPlus rWs, rSI "amount"], rSI "gross",
    rCat [rSI "amount", rPlus rWs, rSI "due"]]]

/-- The column extractor's number token:
`([\$€£₹¥]?\s*)(\d{1,3}(?:,\d{3})*(?:\.\d{1,4})?)\s*(%)?` (g). -/
def rxColNum : RE :=
  rCat [.grp 1 (rCat [rOptQ (rAnyC "$€£₹¥"), .star rWs]),
    .grp 2 (rCat [.rep rDigit 1 3, .star (rCat [rC ',', .rep rDigit 3 3]),
      rOptQ (rCat [rC '.', .rep rDigit 1 4])]),
    .star rWs, rOptQ (.grp 3 (rC '%'))]

/-- `/^[\dA-Z][\w\-\/.]{2,}$/` (case-sensitive) — a part-number segment. -/
def rxCodeSeg : RE :=
  rCat [.bos, .cls (fun c => isDigitC c || isAsciiUpper c),
    rAtLeast (.cls fun c => isWordC c || c = '-' || c = '/' || c = '.') 2, .eos]

/-- `/\s{2,}[\d$€£,.%]+.*$/` — the trailing-columns strip for the name. -/
def rxColNameStrip : RE :=
  rCat [rAtLeast rWs 2,
    rPlus (.cls fun c => isDigitC c || c = '$' || c = '€' || c = '£' ||
      c = ',' || c = '.' || c = '%'),
    .star rDot, .eos]

/-- `/\d{2,}/`. -/
def rxTwoDigits : RE := rCat [rDigit, rDigit]

def inferTaxPct (line : Str) : Option Qv :=
  match jsMatchGroup rxTAX_PERCENT line 1 with
  | some g => parseFloatQ g
  | none => none

/-- The per-row text-segment scan of the column extractor: the first
alphabetic segment becomes the name, the first digit-bearing code segment
(seen while no name-bearing alternative applies) the part number. -/
def colSegments (line : Str) : Str × Option Str :=
  (jsSplit rxTwoSpaces line).foldl (fun acc seg =>
    let trimSeg := jsTrim seg
    if trimSeg.isEmpty then acc
    else if jsTest rxTwoAlpha trimSeg then
      if acc.1.isEmpty then (trimSeg, acc.2) else acc
    else if acc.2.isNone && jsTest rxCodeSeg trimSeg && hasDigit trimSeg then
      (acc.1, some trimSeg)
    else acc) ([], none)

/-- The column extractor's number disambiguation (no tax-percent exclusion in
the positional fallback, unlike `parseLineItem`). -/
def colDisambiguate (rest : List Qv) (total : Qv) : Qv × Option Qv × Option Qv :=
  if rest.length ≥ 2 then
    match bestPair rest total with
    | some qp =>
      let q := rest.getD qp.1 0
      let p := rest.getD qp.2 0
      let remaining := (rest.enum.filter fun e => e.1 ≠ qp.1 ∧ e.1 ≠ qp.2).map (·.2)
      (q, some p, if remaining.length = 1 then remaining.head? else none)
    | none =>
      match rest.find? (fun n => isIntegerQ n && n < 10000) with
      | some q => (q, rest.reverse.find? (fun n => n ≠ q), none)
      | none => (1, rest.getLast?, none)
  else
    match rest with
    | [n] =>
      if isIntegerQ n && n < 10000 && n > 0 then
        let inferredPrice := total / n
        if inferredPrice ≥ 1/100 then (n, some (round4 inferredPrice), none)
        else (1, some n, none)
      else (1, some n, none)
    | _ => (1, none, none)

/-- One data row of the column table (without the description lookahead). -/
def colRowItem (line : Str) : Option DLPart :=
  let nums := (jsMatchAll rxColNum line).filterMap fun m =>
    match capStr line m.2.2 2 with
    | some g2 =>
      match parseStripCommas g2 with
      | some v =>
        if v > 0 then some (v, (capStr line m.2.2 3).isSome) else none
      | none => none
    | none => none
  if nums.isEmpty then none
  else
    let taxPct := inferTaxPct line
    let candidateNums := (nums.filter fun t =>
      !t.2 && (match taxPct with | some tp => t.1 ≠ tp | none => true)).map (·.1)
    if candidateNums.isEmpty then none
    else
      let seg := colSegments line
      let partNumber := seg.2
      let name0 :=
        if seg.1.length < 2 then
          (jsTrim (removeFirst rxColNameStrip line)).take 80
        else seg.1
      let itemName := jsTrim (removeFirst rxRowNum name0)
      if itemName.length < 2 || !jsTest rxTwoAlpha itemName then none
      else
        let total := candidateNums.getLastD 0
        let rest := candidateNums.dropLast
        let dqt := colDisambiguate rest total
        let quantity := dqt.1
        let unitPrice0 := dqt.2.1
        let taxAmount0 := dqt.2.2
        let unitPrice :=
          match unitPrice0 with
          | some u => some u
          | none =>
            if quantity > 0 ∧ total > 0 then some (round4 (total / quantity))
            else none
        let taxAmount :=
          match taxAmount0, taxPct, unitPrice with
          | none, some tp, some up => some (round4 (quantity * up * (tp / 100)))
          | _, _, _ => taxAmount0
        let skuM :=
          match jsSearch rxSKU_LABELED itemName with
          | some m => some m
          | none => jsSearch rxSKU_BARE itemName
        let sku := match skuM with
          | some m => capStr itemName m.2.2 1
          | none => none
        let finalPartNumber := partNumber <|> sku
        let nameOut :=
          match skuM, sku with
          | some m, some _ =>
            let stripped := jsTrim (removeFirstSub (matchStr itemName m) itemName)
            if stripped.isEmpty then itemName else stripped
          | _, _ => itemName
        let part : DLPart :=
          { itemName := nameOut, sku := sku, partNumber := finalPartNumber,
            quantity := quantity, unitPrice := unitPrice.map round4,
            taxPercentage := taxPct, taxAmount := taxAmount,
            totalAmount := round4 total }
        some part

/-- The row loop of `extractFromColumnTable`: stops at a footer row, skips
short rows, and consumes a following description line when it is alphabetic,
digit-light and not a footer row. -/
def colLoop : Nat → List Str → List DLPart
  | 0, _ => []
  | _ + 1, [] => []
  | fuel + 1, line :: rest =>
    if jsTest rxColFooter (jsTrim line) then []
    else if (jsTrim line).length < 4 then colLoop fuel rest
    else
      match colRowItem line with
      | none => colLoop fuel rest
      | some item =>
        match rest with
        | [] => [item]
        | next :: rest2 =>
          let nextLine := jsTrim next
          if nextLine.length > 3 && !jsTest rxTwoDigits nextLine &&
             !jsTest rxColFooter nextLine && jsTest rxTwoAlpha nextLine then
            { item with description := some nextLine } :: colLoop fuel rest2
          else item :: colLoop fuel (next :: rest2)

def extractFromColumnTable (lines : List Str) : List DLPart :=
  match lines.findIdx? (fun l =>
      (colHeaderKws.filter fun kw => containsSub kw.data (lowerS l)).length ≥ 2) with
  | some headerIdx => colLoop lines.length (lines.drop (headerIdx + 1))
  | none => []

-- ─── RuleBasedParser: multi-line items (source: `extractMultiLineItems`) ─────

/-- `^(sub\s*total|subtotal|total|gst|tax|vat|shipping|discount|balance)` (i). -/
def rxMultiFooter : RE :=
  rCat [.bos, rOr [rCat [rSI "sub", .star rWs, rSI "total"], rSI "subtotal",
    rSI "total", rSI "gst", rSI "tax", rSI "vat", rSI "shipping",
    rSI "discount", rSI "balance"]]

/-- `/^[A-Za-z][^$€£\d]*$/` — a description-only line. -/
def rxDescOnly : RE :=
  rCat [.bos, .cls isAlphaC,
    .star (.cls fun c => !(c = '$' || c = '€' || c = '£' || isDigitC c)), .eos]

def multiLoop : Nat → Nat → List Str → List DLPart
  | 0, _, _ => []
  | _ + 1, _, [] => []
  | fuel + 1, i, line :: rest =>
    if jsTest rxMultiFooter (jsTrim line) then []
    else
      match parseLineItem line (i + 1) none with
      | none => multiLoop fuel (i + 1) rest
      | some item =>
        match rest with
        | [] => [item]
        | next0 :: rest2 =>
          let next := jsTrim next0
          if next.length > 3 && jsTest rxDescOnly next &&
             !jsTest rxMultiFooter next then
            let item2 := { item with description := some next }
            match rest2 with
            | [] => [item2]
            | sk0 :: rest3 =>
              match jsMatchGroup rxSKU_LABELED (jsTrim sk0) 1 with
              | some g =>
                { item2 with sku := some g } :: multiLoop fuel (i + 3) rest3
              | none => item2 :: multiLoop fuel (i + 2) rest2
          else
            match jsMatchGroup rxSKU_LABELED next 1 with
            | some g =>
              { item with sku := some g } :: multiLoop fuel (i + 2) rest2
            | none => item :: multiLoop fuel (i + 1) rest

def extractMultiLineItems (lines : List Str) : List DLPart :=
  multiLoop lines.length 0 lines

-- ─── RuleBasedParser: vertical form (source: `extractVerticalFormItems`) ─────

inductive VField where
  | partNumber | description | quantity | unitPrice | listPrice | total
  | coreDeposit
  deriving DecidableEq, Repr

/-- The vertical-form `labelMap`, in source order. -/
def vfLabelMap : List (String × VField) :=
  [ ("part number", .partNumber), ("part no", .partNumber),
    ("part#", .partNumber), ("item no", .partNumber),
    ("item number", .partNumber), ("description", .description),
    ("line description", .description), ("item description", .description),
    ("quantity", .quantity), ("qty", .quantity), ("net", .unitPrice),
    ("unit price", .unitPrice), ("unit cost", .unitPrice),
    ("price", .listPrice), ("total", .total), ("line total", .total),
    ("amount", .total), ("core deposit", .coreDeposit) ]

/-- `trim().toLowerCase().replace(/[:.]+$/, "").trim()`. -/
def vfNormKey (l : Str) : Str :=
  jsTrim ((lowerS (jsTrim l)).reverse.dropWhile (fun c => c = ':' || c = '.')).reverse
  |> jsTrim

def vfLookup (l : Str) : Option VField :=
  (vfLabelMap.find? fun e => e.1.data = vfNormKey l).map (·.2)

def vfIsNumericField : VField → Bool
  | .quantity | .unitPrice | .listPrice | .total | .coreDeposit => true
  | _ => false

/-- `/^(?:sub\s*total|subtotal|total|tax|gst|vat|shipping)/i` — a value may
not be a totals label. -/
def rxVfTotalsLabel : RE :=
  rCat [.bos, rOr [rCat [rSI "sub", .star rWs, rSI "total"], rSI "subtotal",
    rSI "total", rSI "tax", rSI "gst", rSI "vat", rSI "shipping"]]

structure VfCollected where
  partNumber : Option Str := none
  description : Option Str := none
  quantity : Option Str := none
  unitPrice : Option Str := none
  listPrice : Option Str := none
  total : Option Str := none
  coreDeposit : Option Str := none
  deriving DecidableEq, Repr

def vfGet (c : VfCollected) : VField → Option Str
  | .partNumber => c.partNumber
  | .description => c.description
  | .quantity => c.quantity
  | .unitPrice => c.unitPrice
  | .listPrice => c.listPrice
  | .total => c.total
  | .coreDeposit => c.coreDeposit

def vfSet (c : VfCollected) : VField → Str → VfCollected
  | .partNumber, v => { c with partNumber := some v }
  | .description, v => { c with description := some v }
  | .quantity, v => { c with quantity := some v }
  | .unitPrice, v => { c with unitPrice := some v }
  | .listPrice, v => { c with listPrice := some v }
  | .total, v => { c with total := some v }
  | .coreDeposit, v => { c with coreDeposit := some v }

/-- The two-line value lookahead for a label at some line: the first
non-empty following line (up to 2) decides — it must not itself be a label,
a totals label, or (for numeric fields) digit-free. -/
def vfValueFor (field : VField) (next2 : List Str) : Option Str :=
  match next2 with
  | [] => none
  | v0 :: rest =>
    let val := jsTrim v0
    if val.isEmpty then vfValueFor field rest
    else if (vfLookup val).isSome then none
    else if jsTest rxVfTotalsLabel val then none
    else if vfIsNumericField field && !hasDigit val then none
    else some val

/-- The label→value collection scan over all lines. -/
def vfScan : VfCollected × Nat → List Str → VfCollected × Nat
  | acc, [] => acc
  | (c, n), l :: rest =>
    match vfLookup l with
    | some field =>
      (match vfValueFor field (rest.take 2) with
        | some val =>
          if (vfGet c field).isNone then vfScan (vfSet c field val, n + 1) rest
          else vfScan (c, n) rest
        | none => vfScan (c, n) rest)
    | none => vfScan (c, n) rest

/-- `/\bqty\s*[:.]?\s*(\d+)\b/i`. -/
def rxQtyInline : RE :=
  rCat [.wb, rSI "qty", .star rWs, rOptQ (rAnyC ":."), .star rWs,
    .grp 1 (rPlus rDigit), .wb]

/-- `/^(?:part\s*number|description)/i`. -/
def rxVfStart : RE :=
  rCat [.bos, .alt (rCat [rSI "part", .star rWs, rSI "number"]) (rSI "description")]

/-- The stop keywords of the description-fallback scan. -/
def rxVfDescStop : RE :=
  rCat [.bos, rOr [rCat [rSI "sub", .star rWs, rSI "total"], rSI "subtotal",
    rSI "total", rSI "tax", rSI "gst", rSI "vat", rSI "invoice",
    rSI "customer", rSI "employee", rSI "sales", rSI "salesman",
    rSI "attention", rSI "terms", rSI "delivery", rSI "tender", rSI "paid"]]

/-- `/[A-Za-z]{3,}/`. -/
def rxThreeAlpha : RE := rCat [.cls isAlphaC, .cls isAlphaC, .cls isAlphaC]

/-- `/^[\d\-.\/#]+$/`. -/
def rxPureCode : RE :=
  rCat [.bos, rPlus (.cls fun c => isDigitC c || c = '-' || c = '.' ||
    c = '/' || c = '#'), .eos]

/-- The description fallback: first substantive alphabetic line after the
label region start, skipping labels and the collected part number. -/
def vfDescFallback (partNumber : Option Str) : List Str → Option Str
  | [] => none
  | l :: rest =>
    let trimmed := jsTrim l
    if trimmed.isEmpty || trimmed.length < 5 then vfDescFallback partNumber rest
    else if (vfLookup trimmed).isSome then vfDescFallback partNumber rest
    else if jsTest rxVfDescStop trimmed then none
    else if jsTest rxThreeAlpha trimmed && !jsTest rxPureCode trimmed then
      if some trimmed = partNumber then vfDescFallback partNumber rest
      else some trimmed
    else vfDescFallback partNumber rest

/-- `parseAmt`: strip `[^0-9.]`, `parseFloat`, NaN ↦ undefined. -/
def vfParseAmt : Option Str → Option Qv
  | none => none
  | some s => parseFloatQ (s.filter fun c => isDigitC c || c = '.')

/-- `/^\$?\s*([\d,]+\.\d{1,4})\s*$/` — a standalone `$`-amount line. -/
def rxPosAmount : RE :=
  rCat [.bos, rOptQ (rC '$'), .star rWs,
    .grp 1 (rCat [rPlus (.cls fun c => isDigitC c || c = ','), rC '.',
      .rep rDigit 1 4]), .star rWs, .eos]

/-- The core-deposit rescan: look past the captured Total value for a
standalone amount `> 2` within 3 lines. -/
def vfCoreRescan : List Str → Option Qv
  | [] => none
  | l :: rest =>
    match jsMatchGroup rxPosAmount (jsTrim l) 1 with
    | some g =>
      match parseStripCommas g with
      | some amt => if amt > 2 then some amt else vfCoreRescan rest
      | none => vfCoreRescan rest
    | none => vfCoreRescan rest

def extractVerticalFormItems (allLines : List Str) : List DLPart :=
  let scanned := vfScan ({}, 0) allLines
  let c0 := scanned.1
  let n0 := scanned.2
  -- "Qty: N" inline
  let cq :=
    if c0.quantity.isNone then
      match allLines.findSome? (fun l => jsMatchGroup rxQtyInline l 1) with
      | some g => (vfSet c0 .quantity g, n0 + 1)
      | none => (c0, n0)
    else (c0, n0)
  let c1 := cq.1
  let foundLabels := cq.2
  -- description fallback
  let c2 :=
    if c1.description.isNone && c1.partNumber.isSome then
      match allLines.findIdx? (fun l => jsTest rxVfStart (jsTrim l)) with
      | some startIdx =>
        match vfDescFallback c1.partNumber (allLines.drop (startIdx + 1)) with
        | some d => vfSet c1 .description d
        | none => c1
      | none => c1
    else c1
  if foundLabels < 2 || (c2.description.isNone && c2.partNumber.isNone) then []
  else
    let unitPrice := vfParseAmt c2.unitPrice <|> vfParseAmt c2.listPrice
    let total := vfParseAmt c2.total <|> unitPrice
    let quantity := (vfParseAmt c2.quantity).getD 1
    let totalFalsy := match total with | none => true | some t => t = 0
    let upFalsy := match unitPrice with | none => true | some u => u = 0
    if totalFalsy && upFalsy then []
    else
      let itemUnitPrice :=
        match unitPrice with
        | some u => some u
        | none =>
          match total with
          | some t => if t ≠ 0 then some (round4 (t / quantity)) else none
          | none => none
      let itemTotal :=
        match total with
        | some t => t
        | none =>
          match unitPrice with
          | some u => if u ≠ 0 then round4 (u * quantity) else 0
          | none => 0
      let item : DLPart :=
        { itemName := (c2.description <|> c2.partNumber).getD [],
          partNumber := c2.partNumber, quantity := quantity,
          unitPrice := itemUnitPrice, totalAmount := itemTotal }
      let core0 := vfParseAmt c2.coreDeposit
      let core1 :=
        match core0, c2.total with
        | some cd, some totalVal =>
          if cd ≤ 2 && !totalVal.isEmpty then
            match allLines.findIdx? (fun l => jsTrim l = totalVal) with
            | some totalIdx =>
              match vfCoreRescan ((allLines.drop (totalIdx + 1)).take 3) with
              | some amt => some amt
              | none => core0
            | none => core0
          else core0
        | _, _ => core0
      match core1 with
      | some cd =>
        if cd > 0 then
          let coreItem : DLPart :=
            { itemName := "Core Deposit".data, quantity := 1,
              unitPrice := some cd, totalAmount := cd }
          [item, coreItem]
        else [item]
      | none => [item]

-- ─── RuleBasedParser: strategy chain (source: `extractParts`) ────────────────

/-- Strategy 4/5: `parseLineItem` over each line (1-based line numbers). -/
def perLineItems (lines : List Str) : List DLPart :=
  lines.enum.filterMap fun e => parseLineItem e.2 (e.1 + 1) none

/-- `extractParts` — the strategy chain exactly as coded: column table,
vertical form, multi-line, per-line on the body, whole-document scan. -/
def extractParts (bodyLines : List Str) (allLines : List Str) : List DLPart :=
  let tableItems := extractFromColumnTable bodyLines
  if !tableItems.isEmpty then tableItems
  else
    let verticalItems := extractVerticalFormItems allLines
    if !verticalItems.isEmpty then verticalItems
    else
      let multiItems := extractMultiLineItems bodyLines
      if !multiItems.isEmpty then multiItems
      else
        let items := perLineItems bodyLines
        if !items.isEmpty then items
        else perLineItems allLines

-- ─── RuleBasedParser: totals (source: `extractTotals`) ───────────────────────

def rxSubLabel : RE :=
  rOr [rCat [rSI "sub", .star rWs, rSI "total"], rSI "subtotal"]

def rxTaxTotalLabel : RE :=
  rOr [rCat [rSI "total", rPlus rWs, rOr [rSI "gst", rSI "tax", rSI "vat"]],
    rCat [rOr [rSI "gst", rSI "tax", rSI "vat"], rPlus rWs, rSI "total"],
    rCat [rSI "total", rPlus rWs, rSI "tax"]]

def rxTaxLabel : RE := rOr [rSI "gst", rSI "tax", rSI "vat"]

def rxShippingLabel : RE :=
  rOr [rSI "shipping", rSI "delivery", rSI "freight", rSI "carriage"]

def rxDiscountLabel : RE :=
  rOr [rSI "discount", rSI "savings", rSI "rebate"]

def rxGrandLabel : RE :=
  rOr [rCat [rSI "grand", rPlus rWs, rSI "total"],
    rCat [rSI "total", rPlus rWs, rSI "amount", rPlus rWs, rSI "due"],
    rCat [rSI "total", rPlus rWs, rSI "due"]]

def rxDueLabel : RE :=
  rOr [rCat [rSI "amount", rPlus rWs, rSI "due"],
    rCat [rSI "balance", rPlus rWs, rSI "due"]]

def rxAmountColon : RE := rCat [rSI "amount", .star rWs, rC ':']

def rxTotalWb : RE := rCat [.wb, rSI "total", .wb]

def rxPaidLabel : RE :=
  rOr [rCat [rSI "amount", rPlus rWs, rSI "paid"],
    rCat [rSI "cash", rPlus rWs, rSI "tendered"], rSI "tendered"]

def rxBalanceLabel : RE :=
  rOr [rCat [rSI "balance", rPlus rWs, rSI "due"],
    rCat [rSI "change", rPlus rWs, rSI "due"]]

/-- `/\bpct\b.*%/i`. -/
def rxPctLine : RE :=
  rCat [.wb, rSI "pct", .wb, .star rDot, rC '%']

/-- `/\btaxtable\b/i`. -/
def rxTaxTable : RE := rCat [.wb, rSI "taxtable", .wb]

/-- The POS-style tax scan: after the first `PCT`/`TAXTABLE` line, the
standalone amounts on the next 4 lines; with ≥ 2 the smaller of the first
two is the tax.  Stops after the first such line whatever happens. -/
def posTaxScan : List Str → Option Qv
  | [] => none
  | l :: rest =>
    if jsTest rxPctLine l || jsTest rxTaxTable l then
      let amounts := (rest.take 4).filterMap fun j =>
        match jsMatchGroup rxPosAmount (jsTrim j) 1 with
        | some g => parseStripCommas g
        | none => none
      match amounts with
      | a :: b :: _ => some (min a b)
      | _ => none
    else posTaxScan rest

def extractTotals (fullText : Str) (footerText : Str) (parts : List DLPart) :
    DLTotals :=
  let search :=
    (if footerText.length > 10 then footerText ++ ['\n'] else []) ++ fullText
  let footerSearch := if footerText.length > 10 then footerText else fullText
  let subtotal :=
    match extractLabeledAmount search rxSubLabel with
    | some n => some n
    | none =>
      if parts.length > 0 then
        some (round2 (parts.foldl (fun s p => s + p.totalAmount) 0))
      else none
  let totalTax0 := posTaxScan (splitNl fullText)
  let totalTax :=
    match totalTax0 with
    | some t => some t
    | none =>
      match extractLabeledAmount search rxTaxTotalLabel with
      | some t => some t
      | none => extractLabeledAmount search rxTaxLabel
  let shippingCost := extractLabeledAmount search rxShippingLabel
  let discount := extractLabeledAmount search rxDiscountLabel
  let grandTotal :=
    ((((extractLabeledAmount search rxGrandLabel).orElse fun _ =>
      extractLabeledAmount search rxDueLabel).orElse fun _ =>
      extractLabeledAmount search rxAmountColon).orElse fun _ =>
      extractLabeledAmount footerSearch rxTotalWb).orElse (fun _ => subtotal)
    |>.getD 0
  let amountPaid := extractLabeledAmount search rxPaidLabel
  let balanceDue := extractLabeledAmount search rxBalanceLabel
  { subtotal := subtotal, totalTax := totalTax, shippingCost := shippingCost,
    discount := discount, grandTotal := grandTotal, amountPaid := amountPaid,
    balanceDue := balanceDue }

-- ─── RuleBasedParser: assembly (source: `parse`) ─────────────────────────────

/-- `{ ...supplier.taxInformation, ...fullTaxInfo }`: every key the
full-text scan produced overrides. -/
def mergeTaxInfo (a : DLTaxInformation) (b : DLTaxInformation) :
    DLTaxInformation :=
  { taxId := b.taxId <|> a.taxId,
    gstNumber := b.gstNumber <|> a.gstNumber,
    vatNumber := b.vatNumber <|> a.vatNumber,
    ein := b.ein <|> a.ein,
    abnNumber := b.abnNumber <|> a.abnNumber,
    acnNumber := b.acnNumber <|> a.acnNumber }

/-- `RuleBasedParser.parse`.  Total by construction: every branch of the
source returns normally, and the embedding covers each of them.
`extractionTimestamp` (the current instant in the source) is left empty. -/
def parse (rawText : Str) (options : ParserOpts) : DLResponse :=
  let normText := normaliseOCRText rawText
  let lines := ((splitNl normText).map jsTrim).filter fun l => !l.isEmpty
  let docType := options.documentType.getD (classifyDocumentType normText)
  let language := options.language.getD (detectLanguage normText)
  let currency := detectCurrency normText
  let seg := segmentDocument lines
  let headerText := joinNl seg.headerLines
  let footerText := joinNl seg.footerLines
  let supplierName := extractSupplierName seg.headerLines
  let supplier0 := buildSupplier supplierName headerText
  let fullTaxInfo := extractTaxInformation normText
  let supplier :=
    match fullTaxInfo with
    | some ti =>
      let merged := mergeTaxInfo (supplier0.taxInformation.getD {}) ti
      { supplier0 with taxInformation := some merged }
    | none => supplier0
  let buyer := extractBuyer normText lines
  let transaction := extractTransaction normText currency.code
  let parts := extractParts seg.bodyLines lines
  let totals := extractTotals normText footerText parts
  let metadata : DLMetadata :=
    { documentType := docType, confidenceScore := 0,
      extractionTimestamp := [], languageDetected := language,
      ocrProvider := some "pending".data, processingTimeMs := some 0,
      warnings := none }
  { metadata := metadata, supplier := supplier, buyer := buyer,
    transaction := transaction, parts := parts, totals := totals }

-- ─── Confidence engine (source: `ConfidenceEngine.scoreNumericConsistency`) ──

/-- Numeric-consistency sub-score.  `totals` and `parts` are required fields
of the schema, so the defensive `!totals || !parts` guard reduces to the
empty-parts test. -/
def scoreNumericConsistency (response : DLResponse) : Qv :=
  let totals := response.totals
  let parts := response.parts
  if parts.length = 0 then 1/2
  else
    let partSum := parts.foldl (fun s p => s + p.totalAmount) 0
    let subtotal := totals.subtotal.getD partSum
    if subtotal = 0 ∧ totals.grandTotal = 0 then 2/5
    else
      let taxAndFees :=
        totals.totalTax.getD 0 + totals.shippingCost.getD 0 +
        totals.tip.getD 0 + totals.serviceCharge.getD 0 -
        totals.discount.getD 0
      let reconstructed := subtotal + taxAndFees
      let grandTotal := totals.grandTotal
      if grandTotal = 0 then 1/2
      else
        let delta := Qv.abs (reconstructed - grandTotal) / grandTotal
        if delta < 1/100 then 1
        else if delta < 1/20 then 4/5
        else if delta < 3/20 then 3/5
        else 3/10

-- ─── Claim-specific definitions ──────────────────────────────────────────────

/-- First non-empty list of parts in a strategy chain. -/
def firstNonEmpty : List (List DLPart) → List DLPart
  | [] => []
  | [x] => x
  | x :: xs => if x.isEmpty then firstNonEmpty xs else x

/-- Modelled from the spec: §4.5's stated strategy order — column-aligned
table, then multi-line items, then vertical form, then per-line heuristic on
the body, then the whole-document fallback; the first non-empty list wins.
(The source runs the vertical form BEFORE the multi-line strategy.) -/
def extractPartsSpecOrder (bodyLines : List Str) (allLines : List Str) :
    List DLPart :=
  firstNonEmpty [extractFromColumnTable bodyLines,
    extractMultiLineItems bodyLines,
    extractVerticalFormItems allLines,
    perLineItems bodyLines,
    perLineItems allLines]

/-- A vertical-form (POS receipt) document on which the multi-line strategy
also fires, separating the two orders. -/
def vfDocLines : List Str :=
  ["Part Number", "90-27-3325", "Description", "Alternator Assembly",
   "Price", "482.36", "Total", "482.36"].map String.data

/-- A two-line document whose single item is produced by the positional
fallback: `3 × 5.00 = 15 ≠ 100.00`. -/
def posFallbackDoc : Str :=
  "Item  Qty  Price  Total\nWidget AB  3  5.00  100.00".data

/-- Ten lines whose only body-start keyword sits at index 9: the computed
header end (9) exceeds the default footer start (7). -/
def lateHeaderLines : List Str :=
  ["aaa", "bbb", "ccc", "ddd", "eee", "fff", "ggg", "hhh", "iii",
   "Description"].map String.data

/-- A record with a non-empty parts list, grand total 0 and effective
subtotal 0 (the sum of part totals). -/
def zeroTotalsRec : DLResponse :=
  let md : DLMetadata :=
    { documentType := .generic, confidenceScore := 0, languageDetected := [] }
  { metadata := md, supplier := {}, buyer := {}, transaction := {},
    parts := [{ itemName := [], totalAmount := 0 }],
    totals := { grandTotal := 0 } }

/-- A record with a non-empty parts list, grand total 0 and a non-zero
effective subtotal. -/
def zeroGrandRec : DLResponse :=
  let md : DLMetadata :=
    { documentType := .generic, confidenceScore := 0, languageDetected := [] }
  { metadata := md, supplier := {}, buyer := {}, transaction := {},
    parts := [{ itemName := [], totalAmount := 5 }],
    totals := { grandTotal := 0 } }

-- ─── Newline preservation of the normalizer ───────────────────────────────────

theorem nlCount_append (a b : Str) : nlCount (a ++ b) = nlCount a + nlCount b := by
  induction a with
  | nil => simp [nlCount]
  | cons c t ih => simp [nlCount, ih]; omega

theorem nl_takeWhile_zero (p : Char → Bool) (hp : ∀ c, p c = true → c ≠ '\n')
    (s : Str) : nlCount (s.takeWhile p) = 0 := by
  induction s with
  | nil => rfl
  | cons c t ih =>
    by_cases h : p c = true
    · simp [List.takeWhile_cons, h, nlCount, hp c h, ih]
    · simp [List.takeWhile_cons, h, nlCount]

theorem nl_split_takeWhile (p : Char → Bool) (hp : ∀ c, p c = true → c ≠ '\n')
    (s : Str) : nlCount (s.dropWhile p) = nlCount s := by
  conv_rhs => rw [← List.takeWhile_append_dropWhile (p := p) (l := s)]
  rw [nlCount_append, nl_takeWhile_zero p hp s]
  omega

theorem digit_ne_nl {c : Char} (h : isDigitC c = true) : c ≠ '\n' := by
  intro he; subst he; exact absurd h (by decide)

theorem nl_normStep1 (fuel : Nat) (s : Str) :
    nlCount (normStep1 fuel s) = nlCount s := by
  induction fuel generalizing s with
  | zero => rfl
  | succ n ih =>
    match s with
    | [] => rfl
    | c :: rest =>
      simp only [normStep1]
      by_cases hc : c = '$'
      · rw [if_pos hc]
        have hsplit := List.takeWhile_append_dropWhile (p := isJsSpace) (l := rest)
        rcases hdrop : rest.dropWhile isJsSpace with _ | ⟨l, rest1⟩
        · simp [nlCount, ih]
        · rcases rest1 with _ | ⟨d, tail⟩
          · simp [nlCount, ih]
          · by_cases hld : ((l = 'l' || l = 'I') && isDigitC d) = true
            · simp only [hld, if_true]
              rw [hdrop] at hsplit
              have hl : l ≠ '\n' := by
                rcases Bool.and_eq_true .. |>.mp hld with ⟨h1, _⟩
                rcases Bool.or_eq_true .. |>.mp h1 with h | h <;>
                  simp_all
              have hd : d ≠ '\n' := by
                rcases Bool.and_eq_true .. |>.mp hld with ⟨_, h2⟩
                exact digit_ne_nl h2
              calc nlCount (c :: rest.takeWhile isJsSpace ++ '1' :: d :: normStep1 n tail)
                  = (if c = '\n' then 1 else 0) + (nlCount (rest.takeWhile isJsSpace)
                    + nlCount ('1' :: d :: normStep1 n tail)) := by
                    simp [nlCount, nlCount_append]
                _ = nlCount (c :: rest) := by
                    conv_rhs => rw [← hsplit]
                    simp [nlCount, nlCount_append, ih, hl, hd]
            · simp only [hld, if_false]
              simp [nlCount, ih]
      · rw [if_neg hc]
        simp [nlCount, ih]

theorem nl_normStep2 (s : Str) : nlCount (normStep2 s) = nlCount s := by
  induction s using normStep2.induct with
  | case1 c1 c2 c3 rest h ih =>
    rcases Bool.and_eq_true .. |>.mp h with ⟨h12, h3⟩
    rcases Bool.and_eq_true .. |>.mp h12 with ⟨h1, h2⟩
    have hc2 : c2 ≠ '\n' := by
      rcases Bool.or_eq_true .. |>.mp h2 with h0 | h0 <;>
        (rw [of_decide_eq_true h0]; decide)
    simp [normStep2, h, nlCount, ih, digit_ne_nl h1, digit_ne_nl h3, hc2]
  | case2 c1 c2 c3 rest h ih =>
    simp [normStep2, h, nlCount, ih]
  | case3 s h =>
    rcases s with _ | ⟨a, _ | ⟨b, _ | ⟨c, rest⟩⟩⟩
    · rfl
    · rfl
    · rfl
    · exact (h a b c rest rfl).elim

theorem commaGroups_catchall (s : Str)
    (h : ∀ (a b c : Char) (rest : List Char), s = ',' :: a :: b :: c :: rest → False) :
    commaGroups s = ([], s) := by
  conv_lhs => rw [commaGroups.eq_def]
  split
  · rename_i a b c rest
    exact (h a b c rest rfl).elim
  · rfl

theorem commaGroups_append (s : Str) : (commaGroups s).1 ++ (commaGroups s).2 = s := by
  induction s using commaGroups.induct with
  | case1 a b c rest h ih => simp [commaGroups, h, ih]
  | case2 a b c rest h => simp [commaGroups, h]
  | case3 s h => rw [commaGroups_catchall s h]; rfl

theorem commaGroups_nl (s : Str) : nlCount (commaGroups s).1 = 0 := by
  induction s using commaGroups.induct with
  | case1 a b c rest h ih =>
    rcases Bool.and_eq_true .. |>.mp h with ⟨hab, hc⟩
    rcases Bool.and_eq_true .. |>.mp hab with ⟨ha, hb⟩
    simp [commaGroups, h, nlCount, ih, digit_ne_nl ha, digit_ne_nl hb, digit_ne_nl hc]
  | case2 a b c rest h => simp [commaGroups, h, nlCount]
  | case3 s h => rw [commaGroups_catchall s h]; rfl

theorem amountTail3_nl {s m r : Str} (h : amountTail3 s = some (m, r)) :
    nlCount s = nlCount r := by
  unfold amountTail3 at h
  split at h
  · exact absurd h (by simp)
  · split at h
    · rename_i gs d1 d2 rest2 heq
      split at h
      · rename_i hcond
        rcases Bool.and_eq_true .. |>.mp hcond with ⟨hdd, _⟩
        rcases Bool.and_eq_true .. |>.mp hdd with ⟨hd1, hd2⟩
        have hr : rest2 = r := congrArg Prod.snd (Option.some.inj h)
        have hsplit := List.takeWhile_append_dropWhile (p := isDigitC) (l := s)
        have hsplit2 := commaGroups_append (s.dropWhile isDigitC)
        have hgsnl := commaGroups_nl (s.dropWhile isDigitC)
        rw [heq] at hsplit2 hgsnl
        calc nlCount s = nlCount (s.takeWhile isDigitC) +
              nlCount (s.dropWhile isDigitC) := by rw [← nlCount_append, hsplit]
          _ = nlCount (s.dropWhile isDigitC) := by
              rw [nl_takeWhile_zero _ (fun c hcd => digit_ne_nl hcd)]; omega
          _ = nlCount gs + nlCount ('.' :: d1 :: d2 :: rest2) := by
              rw [← nlCount_append, hsplit2]
          _ = nlCount rest2 := by
              simp only [nlCount] at hgsnl ⊢
              rw [hgsnl]
              simp [digit_ne_nl hd1, digit_ne_nl hd2,
                show ('.' : Char) ≠ '\n' by decide]
          _ = nlCount r := by rw [hr]
      · exact absurd h (by simp)
    · exact absurd h (by simp)

theorem nl_normStep3 (fuel : Nat) (prev : Option Char) (s : Str) :
    nlCount (normStep3 fuel prev s) = nlCount s := by
  induction fuel generalizing prev s with
  | zero => rfl
  | succ n ih =>
    match s with
    | [] => rfl
    | c :: rest =>
      simp only [normStep3]
      by_cases hc : (c = 'S' && (match prev with
          | some p => isJsSpace p | none => false)) = true
      · rw [if_pos hc]
        rcases hat : amountTail3 rest with _ | ⟨m, rest2⟩
        · simp [nlCount, ih]
        · have hS : c ≠ '\n' := by
            rcases Bool.and_eq_true .. |>.mp hc with ⟨h1, _⟩
            simp_all
          simp only []
          have := amountTail3_nl hat
          simp [nlCount, ih, hS, this]
      · rw [if_neg (by simpa using hc)]
        simp [nlCount, ih]

theorem blank_ne_nl {c : Char} (h : isBlankC c = true) : c ≠ '\n' := by
  intro he; subst he; exact absurd h (by decide)

theorem nl_normStep4 (fuel : Nat) (s : Str) :
    nlCount (normStep4 fuel s) = nlCount s := by
  induction fuel generalizing s with
  | zero => rfl
  | succ n ih =>
    match s with
    | [] => rfl
    | c :: rest =>
      simp only [normStep4]
      by_cases hc : isBlankC c = true
      · rw [if_pos hc]
        rcases rest with _ | ⟨c2, rest2⟩
        · simp [nlCount, blank_ne_nl hc]
        · by_cases hc2 : isBlankC c2 = true
          · simp only [hc2, if_true]
            have : nlCount ((c2 :: rest2).dropWhile isBlankC) = nlCount (c2 :: rest2) :=
              nl_split_takeWhile isBlankC (fun c h => blank_ne_nl h) _
            simp [nlCount, ih, this, blank_ne_nl hc]
          · simp only [hc2, if_false]
            simp [nlCount, ih]
      · rw [if_neg hc]
        simp [nlCount, ih]

theorem nl_normStep5 (prev : Option Char) (s : Str) :
    nlCount (normStep5 prev s) = nlCount s := by
  induction s generalizing prev with
  | nil => rfl
  | cons c rest ih =>
    simp only [normStep5]
    by_cases hc : (c = ' ' && (match prev with
        | some p => isDigitC p | none => false) && threeDigitsThenBreak rest) = true
    · rw [if_pos hc]
      have hsp : c = ' ' := by
        rcases Bool.and_eq_true .. |>.mp hc with ⟨h1, _⟩
        rcases Bool.and_eq_true .. |>.mp h1 with ⟨h2, _⟩
        simpa using h2
      simp [nlCount, ih, hsp]
    · rw [if_neg (by simpa using hc)]
      simp [nlCount, ih]

theorem nl_normStep6 (s : Str) : nlCount (normStep6 s) = nlCount s := by
  induction s with
  | nil => rfl
  | cons c rest ih =>
    simp only [normStep6]
    by_cases hd : isDashC c = true
    · have hcn : c ≠ '\n' := by
        rcases Bool.or_eq_true .. |>.mp hd with h | h <;>
          (rw [of_decide_eq_true h]; decide)
      simp [nlCount, hd, ih, hcn]
    · simp [nlCount, hd, ih]

theorem nl_normStep7 (s : Str) : nlCount (normStep7 s) = nlCount s := by
  induction s with
  | nil => rfl
  | cons c rest ih =>
    simp only [normStep7]
    by_cases hk : isZeroWidthC c = true
    · have hcn : c ≠ '\n' := by
        intro he; subst he; exact absurd hk (by decide)
      simp [nlCount, hk, ih, hcn]
    · simp [nlCount, hk, ih]

theorem splitNl_ne_nil (s : Str) : splitNl s ≠ [] := by
  induction s with
  | nil => simp [splitNl]
  | cons c rest ih =>
    simp only [splitNl]
    by_cases hc : c = '\n'
    · simp [hc]
    · simp only [hc, if_false]
      rcases h : splitNl rest with _ | ⟨l, ls⟩
      · exact absurd h ih
      · simp

theorem splitNl_lines_nl (s : Str) : ∀ l ∈ splitNl s, nlCount l = 0 := by
  induction s with
  | nil => intro l hl; simp [splitNl] at hl; subst hl; rfl
  | cons c rest ih =>
    intro l hl
    simp only [splitNl] at hl
    by_cases hc : c = '\n'
    · rw [if_pos hc] at hl
      rcases List.mem_cons.mp hl with h | h
      · subst h; rfl
      · exact ih l h
    · rw [if_neg hc] at hl
      rcases hsp : splitNl rest with _ | ⟨l0, ls⟩
      · exact absurd hsp (splitNl_ne_nil rest)
      · rw [hsp] at hl
        rcases List.mem_cons.mp hl with h | h
        · subst h
          have := ih l0 (by rw [hsp]; exact List.mem_cons_self _ _)
          simp [nlCount, hc, this]
        · exact ih l (by rw [hsp]; exact List.mem_cons_of_mem _ h)

theorem nlCount_joinNl (ls : List Str) (h : ∀ l ∈ ls, nlCount l = 0) :
    nlCount (joinNl ls) = ls.length - 1 := by
  induction ls with
  | nil => rfl
  | cons l rest ih =>
    rcases rest with _ | ⟨l2, rest2⟩
    · simpa [joinNl] using h l (List.mem_cons_self _ _)
    · have h1 : nlCount l = 0 := h l (List.mem_cons_self _ _)
      have h2 : ∀ x ∈ l2 :: rest2, nlCount x = 0 :=
        fun x hx => h x (List.mem_cons_of_mem _ hx)
      have := ih h2
      simp only [joinNl]
      rw [nlCount_append, h1]
      simp [nlCount, this]
      omega

theorem nlCount_eq_lines (s : Str) : nlCount s = (splitNl s).length - 1 := by
  induction s with
  | nil => rfl
  | cons c rest ih =>
    simp only [splitNl]
    by_cases hc : c = '\n'
    · have := List.length_pos.mpr (splitNl_ne_nil rest)
      simp [nlCount, hc, ih]
      omega
    · simp only [hc, if_false]
      rcases hsp : splitNl rest with _ | ⟨l0, ls⟩
      · exact absurd hsp (splitNl_ne_nil rest)
      · rw [hsp] at ih
        simp [nlCount, hc, ih]

theorem nlCount_reverse (s : Str) : nlCount s.reverse = nlCount s := by
  induction s with
  | nil => rfl
  | cons c rest ih =>
    simp [List.reverse_cons, nlCount_append, nlCount, ih]
    omega

theorem trimLineEnd_nl_zero {l : Str} (h : nlCount l = 0) :
    nlCount (trimLineEnd l) = 0 := by
  unfold trimLineEnd
  rw [nlCount_reverse]
  have hrev : nlCount l.reverse = 0 := by rw [nlCount_reverse]; exact h
  have hsplit := List.takeWhile_append_dropWhile (p := isBlankC) (l := l.reverse)
  have := nlCount_append (l.reverse.takeWhile isBlankC) (l.reverse.dropWhile isBlankC)
  rw [hsplit] at this
  omega

theorem nl_normStep8 (s : Str) : nlCount (normStep8 s) = nlCount s := by
  unfold normStep8
  rw [nlCount_joinNl]
  · simp [nlCount_eq_lines s]
  · intro l hl
    rcases List.mem_map.mp hl with ⟨l0, hl0, rfl⟩
    exact trimLineEnd_nl_zero (splitNl_lines_nl s l0 hl0)

-- ─── Helper lemmas for the segmentation claim ────────────────────────────────

theorem fst_lt_of_mem_enumFrom {α : Type} :
    ∀ (n : Nat) (l : List α) (p : Nat × α), p ∈ l.enumFrom n → p.1 < n + l.length := by
  intro n l
  induction l generalizing n with
  | nil => intro p hp; simp [List.enumFrom] at hp
  | cons x xs ih =>
    intro p hp
    simp only [List.enumFrom] at hp
    rcases List.mem_cons.mp hp with h | h
    · subst h; simp
    · have := ih (n + 1) p h
      simp only [List.length_cons]
      omega

theorem footerStartOf_le (lines : List Str) : footerStartOf lines ≤ lines.length := by
  simp only [footerStartOf]
  rcases hf : (lines.enum.drop (headerEndOf lines)).find? (fun e =>
      jsTest rxFooterKw e.2 && 20 * e.1 > 7 * lines.length) with _ | e
  · rw [hf]
    show max (3 * lines.length / 4) (lines.length - 15) ≤ lines.length
    omega
  · rw [hf]
    show e.1 ≤ lines.length
    have hmem := List.mem_of_find?_eq_some hf
    have hmem2 : e ∈ lines.enum := List.mem_of_mem_drop hmem
    have := fst_lt_of_mem_enumFrom 0 lines e hmem2
    omega

-- ═══ Claim theorems ══════════════════════════════════════════════════════════

/-- C1 (counterexample): on a vertical-form receipt whose body also parses
under the multi-line strategy, `extractParts` (which runs the vertical form
second) differs from the spec's stated order (which runs multi-line items
second); so the claimed strategy order is not the code's. -/
theorem extractParts_order_counterexample :
    extractParts (segmentDocument vfDocLines).bodyLines vfDocLines ≠
      extractPartsSpecOrder (segmentDocument vfDocLines).bodyLines vfDocLines := by
  decide

/-- C1 (amended): `extractParts` tries the strategies in the strict order
column-aligned table, vertical form, multi-line items, per-line heuristic on
the body lines, whole-document fallback, and returns the result of the first
strategy yielding a non-empty list. -/
theorem extractParts_strategy_order (b a : List Str) :
    extractParts b a =
      firstNonEmpty [extractFromColumnTable b, extractVerticalFormItems a,
        extractMultiLineItems b, perLineItems b, perLineItems a] := by
  simp only [extractParts, firstNonEmpty]
  by_cases h1 : (extractFromColumnTable b).isEmpty <;>
    by_cases h2 : (extractVerticalFormItems a).isEmpty <;>
      by_cases h3 : (extractMultiLineItems b).isEmpty <;>
        by_cases h4 : (perLineItems b).isEmpty <;>
          simp [h1, h2, h3, h4]

/-- C2 (counterexample): `parse` emits a part with `quantity = 3 > 0`,
`unit_price = 5` and `total_amount = 100` — the positional fallback fired,
`|3·5 − 100| / max(100, 1) = 0.85 > 0.05` — and the returned record carries
no warning at all in `metadata.warnings`. -/
theorem parse_positional_fallback_unflagged :
    ((parse posFallbackDoc {}).parts.map fun p =>
      (p.quantity, p.unitPrice, p.totalAmount)) = [(3, some 5, 100)] ∧
    (parse posFallbackDoc {}).metadata.warnings = none ∧
    ¬ Qv.abs ((3 : Qv) * 5 - 100) / max (100 : Qv) 1 ≤ 1 / 20 :=
  ⟨by decide, rfl, by decide⟩

/-- C2 (amended): the rule-based parser never writes `metadata.warnings` —
the field is absent on every record it returns — so a part whose
quantity/unit-price pair was assigned by the positional fallback can violate
the 5% bound without any warning being recorded. -/
theorem parse_warnings_always_absent (raw : Str) (options : ParserOpts) :
    (parse raw options).metadata.warnings = none := rfl

/-- C3: `parse` is total (the embedding returns a record for every input and
option value — the source has no throwing path), and `parse("")` yields
document type `generic`, grand total `0` and an empty parts list. -/
theorem parse_total_and_empty_input :
    (∀ (raw : Str) (options : ParserOpts), ∃ r : DLResponse, parse raw options = r) ∧
    (parse "".data {}).metadata.documentType = .generic ∧
    (parse "".data {}).totals.grandTotal = 0 ∧
    (parse "".data {}).parts = [] :=
  ⟨fun raw options => ⟨parse raw options, rfl⟩, by decide, by decide, by decide⟩

/-- C4 (counterexample): the labeled two-digit-year date `15/01/24` is
returned verbatim by `extractDates` — it is not ISO `YYYY-MM-DD` and contains
no `20`-expanded year. -/
theorem extractDates_two_digit_year_counterexample :
    (extractDates "Date: 15/01/24".data).invoiceDate = some "15/01/24".data ∧
    jsTest rxIsoShape "15/01/24".data = false ∧
    containsSub "2024".data "15/01/24".data = false :=
  ⟨by decide, by decide, by decide⟩

/-- C4 (amended): `extractDates` normalizes a labeled numeric date to ISO
`YYYY-MM-DD` (day-first) only when the value has a four-digit year; a
two-digit-year value is returned unchanged — no `20xx` expansion exists. -/
theorem extractDates_four_digit_iso_only :
    (extractDates "Date: 15/01/2024".data).invoiceDate = some "2024-01-15".data ∧
    (extractDates "Date: 15/01/24".data).invoiceDate = some "15/01/24".data ∧
    normaliseDateString "15/01/24".data = "15/01/24".data :=
  ⟨by decide, by decide, by decide⟩

/-- C5 (counterexample): for the document `PO Number: ABC-42` the extracted
`purchase_order_number` is absent, not `"ABC-42"` — the PO regex requires
`#`/`:` right after `PO` or the full `Purchase Order` label, so the bare
`PO Number:` label never matches. -/
theorem po_number_bare_label_counterexample :
    (extractTransaction "PO Number: ABC-42".data "USD".data).purchaseOrderNumber = none ∧
    (none : Option Str) ≠ some "ABC-42".data :=
  ⟨by decide, by decide⟩

/-- C5 (amended): the PO-number extraction captures the value after `PO#:`
and after `Purchase Order Number:` (and never the word `Number` there), but
the bare label `PO Number:` yields no purchase-order number at all. -/
theorem po_number_label_contract :
    (extractTransaction "PO Number: ABC-42".data "USD".data).purchaseOrderNumber = none ∧
    (extractTransaction "Purchase Order Number: ABC-42".data "USD".data).purchaseOrderNumber =
      some "ABC-42".data ∧
    (extractTransaction "PO#: PO-2024-007".data "USD".data).purchaseOrderNumber =
      some "PO-2024-007".data :=
  ⟨by decide, by decide, by decide⟩

/-- C6 (counterexample): a record with a non-empty parts list and grand
total 0 whose effective subtotal is also 0 scores 0.4, not the claimed 0.5. -/
theorem numeric_consistency_zero_subtotal_counterexample :
    zeroTotalsRec.parts ≠ [] ∧ zeroTotalsRec.totals.grandTotal = 0 ∧
    scoreNumericConsistency zeroTotalsRec = 2/5 ∧ ((2 : Qv)/5 ≠ 1/2) :=
  ⟨by decide, by decide, by decide, by decide⟩

/-- C6 (amended): with a non-empty parts list and grand total 0, the
numeric-consistency sub-score is 0.5 — unless the effective subtotal
(`totals.subtotal`, defaulting to the sum of the part totals) is also 0, in
which case it is 0.4. -/
theorem numeric_consistency_zero_grand_total (r : DLResponse)
    (h1 : r.parts ≠ []) (h2 : r.totals.grandTotal = 0) :
    scoreNumericConsistency r =
      if r.totals.subtotal.getD (r.parts.foldl (fun s p => s + p.totalAmount) 0) = 0
      then 2/5 else 1/2 := by
  have hlen : ¬ (r.parts.length = 0) := by
    simpa [List.length_eq_zero] using h1
  simp only [scoreNumericConsistency]
  rw [if_neg hlen]
  by_cases hs : r.totals.subtotal.getD
      (r.parts.foldl (fun s p => s + p.totalAmount) 0) = 0
  · rw [if_pos ⟨hs, h2⟩, if_pos hs]
  · rw [if_neg (fun hc => hs hc.1), if_neg hs, if_pos h2]

/-- C6 (witness): the amended theorem applied to a concrete record with a
non-zero part total and grand total 0. -/
theorem numeric_consistency_zero_grand_total_witness :
    scoreNumericConsistency zeroGrandRec =
      if zeroGrandRec.totals.subtotal.getD
          (zeroGrandRec.parts.foldl (fun s p => s + p.totalAmount) 0) = 0
      then 2/5 else 1/2 :=
  numeric_consistency_zero_grand_total zeroGrandRec (by decide) (by decide)

/-- C7 (counterexample): on ten lines whose only body-start keyword sits at
index 9, the header end (9) exceeds the default footer start (7): the body is
empty, lines 7–8 land in both the header and the footer, and the
concatenation of the three slices is not the input. -/
theorem segment_slices_overlap_counterexample :
    (segmentDocument lateHeaderLines).headerLines ++
      (segmentDocument lateHeaderLines).bodyLines ++
      (segmentDocument lateHeaderLines).footerLines ≠ lateHeaderLines := by
  decide

/-- C7 (amended): the segmenter returns the slices `[0..header_end)`,
`[header_end..footer_start)`, `[footer_start..end)` with
`footer_start ≤ length`; whenever `header_end ≤ footer_start` (which can
fail: see the counterexample) the three slices concatenate to the input. -/
theorem segment_slices_concat (lines : List Str)
    (h : headerEndOf lines ≤ footerStartOf lines) :
    (segmentDocument lines).headerLines ++ (segmentDocument lines).bodyLines ++
      (segmentDocument lines).footerLines = lines ∧
    footerStartOf lines ≤ lines.length := by
  refine ⟨?_, footerStartOf_le lines⟩
  show lines.take (headerEndOf lines) ++
      (lines.drop (headerEndOf lines)).take (footerStartOf lines - headerEndOf lines) ++
      lines.drop (footerStartOf lines) = lines
  have hsum : headerEndOf lines + (footerStartOf lines - headerEndOf lines) =
      footerStartOf lines := by omega
  have h2 : lines.take (headerEndOf lines) ++
      (lines.drop (headerEndOf lines)).take (footerStartOf lines - headerEndOf lines) =
      lines.take (footerStartOf lines) := by
    rw [← List.take_add, hsum]
  rw [h2, List.take_append_drop]

/-- C7 (witness): the amended theorem at the one-line document `["Total"]`,
where `header_end = footer_start = 0`. -/
theorem segment_slices_concat_witness :
    ((segmentDocument ["Total".data]).headerLines ++
      (segmentDocument ["Total".data]).bodyLines ++
      (segmentDocument ["Total".data]).footerLines = ["Total".data]) ∧
    footerStartOf ["Total".data] ≤ (["Total".data] : List Str).length :=
  segment_slices_concat ["Total".data] (by decide)

/-- C8: normalization is NOT idempotent, contradicting the spec's universal
property 1 — the digit-O-digit repair resumes scanning after each match, so
the overlapping run `1O2O3` is repaired to `102O3` in one pass and to
`10203` only on the second. -/
theorem normalise_not_idempotent_on_overlap :
    normaliseOCRText (normaliseOCRText "1O2O3".data) ≠
      normaliseOCRText "1O2O3".data ∧
    normaliseOCRText "1O2O3".data = "102O3".data ∧
    normaliseOCRText "102O3".data = "10203".data :=
  ⟨by decide, by decide, by decide⟩

/-- C9: OCR text normalization preserves the number of newline characters of
every input string. -/
theorem normaliseOCRText_preserves_newlines (s : Str) :
    nlCount (normaliseOCRText s) = nlCount s := by
  simp only [normaliseOCRText]
  rw [nl_normStep8, nl_normStep7, nl_normStep6, nl_normStep5, nl_normStep4,
    nl_normStep3, nl_normStep2, nl_normStep1]

/-- C10: `parseLineItem` does not require the item name to contain letters —
on the numeric-only line `123  456.78` it returns a part whose `item_name`
is `123` (no alphabetic character) — while the column-table extractor
rejects the same candidate row for lacking a 2-letter alphabetic run. -/
theorem parseLineItem_accepts_numeric_only_name :
    ((parseLineItem "123  456.78".data 1 none).map (·.itemName)) = some "123".data ∧
    "123".data.all (fun c => !isAlphaC c) = true ∧
    extractFromColumnTable ["Qty  Unit Price".data, "123  456.78".data] = [] :=
  ⟨by decide, by decide, by decide⟩

end DataLift
